import Mathlib

/-!
Verification of the BackPedidos pedido approval state machine.

The definitions below are a shallow embedding of the route handlers in
`app/routes/pedidos.py`, `app/routes/pedidos_acciones.py`,
`app/routes/archivos.py` and `app/routes/ui.py`.  Each HTTP handler that
touches `public.pedido.estado` or `public.pedido_historial` is translated
into a pure Lean function over an explicit state; a raised `HTTPException`
becomes an `Except.error`, and — because every handler either commits at the
end of its transaction or raises before/inside it (psycopg rolls the
transaction back on an exception) — an error outcome leaves the modelled
database state unchanged.
-/

namespace BackPedidos

/-! ### Python string primitives used by the handlers -/

/-- Characters stripped by Python `str.strip()` (ASCII whitespace suffices for
the strings this code handles). -/
def stripChars (l : List Char) : List Char :=
  ((l.dropWhile Char.isWhitespace).reverse.dropWhile Char.isWhitespace).reverse

/-- Python `str.strip()`. -/
def pyStrip (s : String) : String := ⟨stripChars s.toList⟩

/-- Python `str.lower()` on one character, covering the accented Spanish
letters that appear in this code base. -/
def pyLowerChar (c : Char) : Char :=
  if c = 'Á' then 'á' else if c = 'É' then 'é' else if c = 'Í' then 'í'
  else if c = 'Ó' then 'ó' else if c = 'Ú' then 'ú' else if c = 'Ñ' then 'ñ'
  else c.toLower

/-- Python `str.lower()`. -/
def pyLower (s : String) : String := ⟨s.toList.map pyLowerChar⟩

/-- Python `str.upper()` on one character, covering the accented Spanish
letters that appear in this code base. -/
def pyUpperChar (c : Char) : Char :=
  if c = 'á' then 'Á' else if c = 'é' then 'É' else if c = 'í' then 'Í'
  else if c = 'ó' then 'Ó' else if c = 'ú' then 'Ú' else if c = 'ñ' then 'Ñ'
  else c.toUpper

/-- Python `str.upper()`. -/
def pyUpper (s : String) : String := ⟨s.toList.map pyUpperChar⟩

/-- Boolean list-prefix test. -/
def listPref : List Char → List Char → Bool
  | [], _ => true
  | _ :: _, [] => false
  | a :: as, b :: bs => a == b && listPref as bs

/-- Boolean list-infix test. -/
def listInfix : List Char → List Char → Bool
  | needle, [] => needle.isEmpty
  | needle, c :: t => listPref needle (c :: t) || listInfix needle t

/-- Python `needle in hay` on strings (substring test). -/
def pySubstr (needle hay : String) : Bool :=
  listInfix needle.toList hay.toList

/-- Python `s or None` for an optional string: an empty string is falsy and
collapses to `None`. -/
def pyOrNone : Option String → Option String
  | some "" => none
  | x => x

/-! ### Data model

`public.pedido` (the fields the state machine reads) together with its
`public.pedido_historial` rows, and `public.pedido_archivo`. -/

/-- One row of `public.pedido_historial`. -/
structure HistRow where
  estado_anterior : String
  estado_nuevo : String
  motivo : Option String
  changed_by : String
deriving Repr, DecidableEq

/-- The fields of a `public.pedido` row that the state machine reads or
writes, together with the pedido's append-only historial. -/
structure Pedido where
  numero : String
  estado : String
  presupuesto_estimado : Option ℚ
  secretaria_nombre : String
  historial : List HistRow
deriving Repr, DecidableEq

/-- One row of `public.pedido_archivo`.  `reviewed_at` is modelled as an
`Option Unit`: `some ()` when the column holds a timestamp, `none` for NULL. -/
structure ArchivoRow where
  pedido_id : Nat
  tipo_doc : String
  storage_path : String
  file_name : String
  content_type : String
  bytes : Nat
  review_status : Option String
  review_notes : Option String
  reviewed_by : Option String
  reviewed_at : Option Unit
deriving Repr, DecidableEq

/-- The estado values documented for `public.pedido`. -/
def estadosValidos : List String :=
  ["borrador", "enviado", "en_revision", "aprobado", "rechazado",
   "en_proceso", "area_pago", "cerrado", "observado"]

/-- The forward chain of the workflow, in order. -/
def cadenaPrincipal : List String :=
  ["borrador", "enviado", "en_revision", "aprobado", "en_proceso",
   "area_pago", "cerrado"]

/-- Error taxonomy: each constructor corresponds to the HTTP status used by
the handlers (404, 422, 409, 403). -/
inductive ApiError where
  | notFound (detail : String)
  | validation (detail : String)
  | conflict (detail : String)
  | forbidden (detail : String)
deriving Repr, DecidableEq

/-- The pedido after running a handler that returns `Pedido` on success:
on an error the transaction was rolled back, so the pedido is unchanged. -/
def estadoTras {α : Type} (p : Pedido) : Except ApiError (Pedido × α) → Pedido
  | .ok (p', _) => p'
  | .error _ => p

/-- The pedido after running a review handler (which returns the updated
archivo row and the pedido): on an error the transaction was rolled back. -/
def pedidoTrasReview (p : Pedido) : Except ApiError (ArchivoRow × Pedido) → Pedido
  | .ok (_, p') => p'
  | .error _ => p

/-! ### `_set_estado` — src/app/routes/pedidos.py lines 137-158 -/

/-- `_set_estado(cur, pedido_id, nuevo, changed_by)`: change the estado and
record one `pedido_historial` row, skipping silently when the estado is
already `nuevo`.  The historial `motivo` is always NULL here, and
`changed_by` defaults to `"system"`. -/
def set_estado (p : Pedido) (nuevo : String) (changed_by : Option String) : Pedido :=
  if p.estado = nuevo then p
  else
    { p with
      estado := nuevo
      historial := p.historial ++
        [{ estado_anterior := p.estado, estado_nuevo := nuevo, motivo := none,
           changed_by := (pyOrNone changed_by).getD "system" }] }

/-! ### `decidir_pedido` — src/app/routes/pedidos_acciones.py lines 23-66 -/

/-- Python `not notes or not notes.strip()`: the notes are missing, empty, or
whitespace-only. -/
def notesBlank : Option String → Bool
  | none => true
  | some s => pyStrip s = ""

/-- The final `if estado_nuevo != estado_actual` block of `decidir_pedido`:
update the pedido and append one historial row, or skip when equal.
`estado_actual` is the lowered current estado that the handler computed. -/
def aplicarDecision (p : Pedido) (estado_actual estado_nuevo : String)
    (notes changed_by : Option String) : Pedido :=
  if estado_nuevo = estado_actual then p
  else
    { p with
      estado := estado_nuevo
      historial := p.historial ++
        [{ estado_anterior := estado_actual, estado_nuevo := estado_nuevo,
           motivo := notes, changed_by := (pyOrNone changed_by).getD "ui" }] }

/-- `POST /pedidos/{id}/decision`: manual decision
`"aprobar" | "observar" | "rechazar"`.  Returns the updated pedido and the
`estado` field of the JSON response. -/
def decidir_pedido (p : Pedido) (decision : String) (notes changed_by : Option String) :
    Except ApiError (Pedido × String) :=
  let dec := pyStrip (pyLower decision)
  if dec = "aprobar" ∨ dec = "observar" ∨ dec = "rechazar" then
    let estado_actual := pyLower p.estado
    if dec = "aprobar" then
      if estado_actual = "aprobado" ∨ estado_actual = "cerrado" ∨
         estado_actual = "area_pago" ∨ estado_actual = "en_proceso" then
        .error (.conflict "No se puede aprobar desde ese estado")
      else
        .ok (aplicarDecision p estado_actual "aprobado" notes changed_by, "aprobado")
    else if dec = "observar" then
      if notesBlank notes then
        .error (.validation "notes es requerido para observar")
      else
        .ok (aplicarDecision p estado_actual "observado" notes changed_by, "observado")
    else
      if notesBlank notes then
        .error (.validation "notes es requerido para rechazar")
      else
        .ok (aplicarDecision p estado_actual "rechazado" notes changed_by, "rechazado")
  else
    .error (.validation "decision debe ser: aprobar | observar | rechazar")

/-! ### `ui_pedidos_set_estado` — src/app/routes/ui.py lines 285-405 -/

/-- The `$10M` threshold `UMBRAL = Decimal(10_000_000)` of ui.py line 291. -/
def UMBRAL : ℚ := 10000000

/-- `_infer_role` — ui.py lines 293-301: resolve a coarse role from the
caller-supplied `X-Secretaria` header. -/
def infer_role (nombre_secretaria : Option String) : String :=
  let s := pyUpper (nombre_secretaria.getD "")
  if pySubstr "ECONOM" s then "economia_admin"
  else if pySubstr "ÁREA DE COMPRAS" s || pySubstr "AREA DE COMPRAS" s then "area_compras"
  else if pySubstr "SECRETARÍA DE COMPRAS" s || pySubstr "SECRETARIA DE COMPRAS" s then
    "secretaria_compras"
  else "secretaria"

/-- The relevant fields of the JSON response of `ui_pedidos_set_estado`. -/
structure UiEstadoResp where
  estado : String
  previous : String
  updated : Bool
deriving Repr, DecidableEq

/-- The permission block of `ui_pedidos_set_estado` (ui.py lines 333-345):
resolve the role and compute `allowed`, or raise 403 when a plain secretariat
caller sent no usable `X-Secretaria` header.  The source guard is
`if not x_secretaria`, which is satisfied by a missing header AND by an
empty-string header (both are falsy in Python), hence the `pyOrNone`
collapse before the match. -/
def ui_allowed (p : Pedido) (x_secretaria : Option String) : Except ApiError Bool :=
  let monto : ℚ := p.presupuesto_estimado.getD 0
  let rol := infer_role x_secretaria
  if rol = "economia_admin" then .ok true
  else if rol = "area_compras" then .ok (decide (monto > UMBRAL))
  else if rol = "secretaria_compras" then .ok (decide (monto ≤ UMBRAL))
  else
    match pyOrNone x_secretaria with
    | none => .error (.forbidden "Falta X-Secretaria para validar permisos")
    | some xs => .ok (pyUpper (pyStrip xs) == pyUpper (pyStrip p.secretaria_nombre))

/-- `POST /ui/pedidos/{id}/estado`: direct pedido-state request.  The body
`estado` is restricted to `"aprobado" | "en_revision"` by the pydantic
`Literal`; any other value is rejected by FastAPI validation before the
handler runs, modelled here as the outer guard. -/
def ui_pedidos_set_estado (p : Pedido) (estado_req : String)
    (motivo x_user x_secretaria : Option String) :
    Except ApiError (Pedido × UiEstadoResp) :=
  if estado_req = "aprobado" ∨ estado_req = "en_revision" then
    let estado_anterior := p.estado
    match ui_allowed p x_secretaria with
    | .error e => .error e
    | .ok ok =>
      if !ok then
        .error (.forbidden "Sin permisos para cambiar el estado de este pedido")
      else if estado_anterior = estado_req then
        .ok (p, { estado := estado_req, previous := estado_anterior, updated := false })
      else
        .ok ({ p with
                estado := estado_req
                historial := p.historial ++
                  [{ estado_anterior := estado_anterior, estado_nuevo := estado_req,
                     motivo := motivo, changed_by := (pyOrNone x_user).getD "ui" }] },
             { estado := estado_req, previous := estado_anterior, updated := true })
  else .error (.validation "estado debe ser aprobado o en_revision")

/-! ### Document review — src/app/routes/archivos.py lines 205-332 and
src/app/routes/ui.py lines 491-578 -/

/-- Step 1 of both review handlers: write the archivo's
`review_status / review_notes / reviewed_by / reviewed_at` columns.
`notes or None` collapses an empty string to NULL; `x_user or "ui"` is the
default actor. -/
def review_update_archivo (a : ArchivoRow) (decision : String)
    (notes x_user : Option String) : ArchivoRow :=
  { a with
    review_status := some decision
    review_notes := pyOrNone notes
    reviewed_by := some ((pyOrNone x_user).getD "ui")
    reviewed_at := some () }

/-- A pedido-state transition performed inside a review handler: update the
estado and append one historial row carrying the given `motivo`. -/
def review_transition (p : Pedido) (nuevo motivo : String) (x_user : Option String) : Pedido :=
  { p with
    estado := nuevo
    historial := p.historial ++
      [{ estado_anterior := p.estado, estado_nuevo := nuevo, motivo := some motivo,
         changed_by := (pyOrNone x_user).getD "ui" }] }

/-- `POST /archivos/{archivo_id}/review` — archivos.py lines 205-332.
Locks the archivo row, writes its review columns, then — only on decision
`"aprobado"` — applies the transition keyed by the archivo's lowered
`tipo_doc`: presupuesto_1/presupuesto_2 from `enviado` to `aprobado`,
formal_pdf to `en_proceso`, expediente_1 to `area_pago`, expediente_2 to
`cerrado`, each guarded as in the source. -/
def review_archivo (a : ArchivoRow) (p : Pedido) (decision : String)
    (notes x_user : Option String) :
    Except ApiError (ArchivoRow × Pedido) :=
  let dec := pyLower (pyStrip decision)
  if dec = "aprobado" ∨ dec = "observado" then
    let tipo_doc := pyLower a.tipo_doc
    let a2 := review_update_archivo a dec notes x_user
    if dec = "aprobado" then
      if tipo_doc = "presupuesto_1" ∨ tipo_doc = "presupuesto_2" then
        if p.estado = "enviado" then
          .ok (a2, review_transition p "aprobado" "aprobación de presupuesto" x_user)
        else .ok (a2, p)
      else if tipo_doc = "formal_pdf" then
        if p.estado ≠ "en_proceso" then
          .ok (a2, review_transition p "en_proceso" "aprobación de formal_pdf" x_user)
        else .ok (a2, p)
      else if tipo_doc = "expediente_1" then
        if p.estado ≠ "area_pago" then
          .ok (a2, review_transition p "area_pago" "aprobación de expediente_1" x_user)
        else .ok (a2, p)
      else if tipo_doc = "expediente_2" then
        if p.estado ≠ "cerrado" then
          .ok (a2, review_transition p "cerrado" "aprobación de expediente_2" x_user)
        else .ok (a2, p)
      else .ok (a2, p)
    else .ok (a2, p)
  else .error (.validation "decision debe ser aprobado u observado")

/-- `POST /ui/pedidos/archivos/{archivo_id}/review` — ui.py lines 491-578.
The body `decision` is restricted to `"aprobado" | "observado"` by the
pydantic `Literal` (outer guard).  The `tipo_doc` is used as stored (not
lowered), and only `formal_pdf`, `expediente_1` and `expediente_2` map to a
new estado — presupuesto documents cause no pedido-state change here.  The
historial `motivo` is the f-string `"aprobación de {tipo_doc}"`. -/
def ui_review_archivo (a : ArchivoRow) (p : Pedido) (decision : String)
    (notes x_user : Option String) :
    Except ApiError (ArchivoRow × Pedido) :=
  if decision = "aprobado" ∨ decision = "observado" then
    let tipo_doc := a.tipo_doc
    let a2 := review_update_archivo a decision notes x_user
    if decision = "aprobado" then
      let nuevo_estado : Option String :=
        if tipo_doc = "formal_pdf" then some "en_proceso"
        else if tipo_doc = "expediente_1" then some "area_pago"
        else if tipo_doc = "expediente_2" then some "cerrado"
        else none
      match nuevo_estado with
      | none => .ok (a2, p)
      | some nuevo =>
        if p.estado ≠ nuevo then
          .ok (a2, review_transition p nuevo ("aprobación de " ++ tipo_doc) x_user)
        else .ok (a2, p)
    else .ok (a2, p)
  else .error (.validation "decision debe ser aprobado u observado")

/-! ### Uploads — src/app/routes/pedidos.py lines 567-654 and
src/app/routes/archivos.py lines 77-165 -/

/-- The file metadata written by an upload. -/
structure UploadMeta where
  storage_path : String
  file_name : String
  content_type : String
  bytes : Nat
deriving Repr, DecidableEq

/-- The `ON CONFLICT (pedido_id, tipo_doc) DO UPDATE` of archivos.py lines
136-153: replace the storage metadata and reset the whole review cycle
(`review_status / review_notes / reviewed_by / reviewed_at` back to NULL). -/
def upsert_archivo_archivos (old : ArchivoRow) (m : UploadMeta) : ArchivoRow :=
  { old with
    storage_path := m.storage_path
    file_name := m.file_name
    content_type := m.content_type
    bytes := m.bytes
    review_status := none
    review_notes := none
    reviewed_by := none
    reviewed_at := none }

/-- The `ON CONFLICT (pedido_id, tipo_doc) DO UPDATE` of pedidos.py lines
613-626: replace the storage metadata only — the review columns are left
untouched. -/
def upsert_archivo_pedidos (old : ArchivoRow) (m : UploadMeta) : ArchivoRow :=
  { old with
    storage_path := m.storage_path
    file_name := m.file_name
    content_type := m.content_type
    bytes := m.bytes }

/-- The database effect of `POST /archivos/{pedido_id}` (archivos.py): the
archivo row is upserted in its own transaction; the handler never touches
`public.pedido` or `public.pedido_historial`, so the pedido is returned
unchanged. -/
def upload_archivo_archivos (p : Pedido) (old : ArchivoRow) (m : UploadMeta) :
    ArchivoRow × Pedido :=
  (upsert_archivo_archivos old m, p)

/-- The second transaction of `POST /pedidos/{pedido_id}/archivos`
(pedidos.py lines 632-652): read the estado (plain SELECT) and apply the
automatic transition keyed by `tipo_doc` via `_set_estado`. -/
def upload_transition (p : Pedido) (tipo_doc : String) : Pedido :=
  if tipo_doc = "formal_pdf" then
    if p.estado = "borrador" ∨ p.estado = "enviado" ∨ p.estado = "en_revision" ∨
       p.estado = "aprobado" then
      set_estado p "en_proceso" (some "upload:formal_pdf")
    else p
  else if tipo_doc = "expediente_1" then
    if p.estado ≠ "cerrado" then set_estado p "area_pago" (some "upload:expediente_1") else p
  else if tipo_doc = "expediente_2" then
    if p.estado ≠ "cerrado" then set_estado p "cerrado" (some "upload:expediente_2") else p
  else p

/-- The pedido as seen by the two successive transactions of
`POST /pedidos/{pedido_id}/archivos`: `after_metadata` is the pedido when the
metadata transaction commits (pedidos.py line 630) — the transition runs in a
separate transaction opened afterwards (line 633). -/
structure UploadOutcome where
  after_metadata : Pedido
  final : Pedido
deriving Repr, DecidableEq

/-- `POST /pedidos/{pedido_id}/archivos`, pedido-state view: the metadata
transaction leaves the pedido untouched; the follow-up transaction applies
`upload_transition`. -/
def upload_archivo_pedidos (p : Pedido) (tipo_doc : String) : UploadOutcome :=
  { after_metadata := p, final := upload_transition p tipo_doc }

/-- Transcribed from pedidos.py line 634: the estado read that precedes the
automatic upload transition is a plain `SELECT`, with no `FOR UPDATE` row
lock (compare ui.py line 320 and archivos.py line 244, which do lock). -/
def upload_estado_select_locks : Bool := false

/-- Transcribed from pedidos.py lines 627-652: the automatic transition runs
in a second `get_conn()` block, opened after the metadata transaction has
committed. -/
def upload_transition_separate_tx : Bool := true

end BackPedidos

deriving instance DecidableEq for Except

namespace BackPedidos

/-! ### Observation helpers and audit predicate -/

/-- Either the pedido is unchanged (estado and historial), or its estado
changed and exactly one historial row was appended, recording the prior
estado as `estado_anterior` and the new estado as `estado_nuevo`. -/
def historial_ok (p p' : Pedido) : Prop :=
  (p'.estado = p.estado ∧ p'.historial = p.historial) ∨
  (p'.estado ≠ p.estado ∧ ∃ m cb,
     p'.historial = p.historial ++
       [{ estado_anterior := p.estado, estado_nuevo := p'.estado, motivo := m,
          changed_by := cb }])

lemma historial_ok_refl (p : Pedido) : historial_ok p p := Or.inl ⟨rfl, rfl⟩

/-- Every documented estado is already lower-case, so the `.lower()` the
handlers apply to it is the identity. -/
lemma pyLower_of_valid {s : String} (h : s ∈ estadosValidos) : pyLower s = s := by
  fin_cases h <;> rfl

lemma historial_ok_aplicarDecision (p : Pedido) (nuevo : String) (notes cb : Option String)
    (h : pyLower p.estado = p.estado) :
    historial_ok p (aplicarDecision p (pyLower p.estado) nuevo notes cb) := by
  rw [h]
  unfold aplicarDecision
  split_ifs with hn
  · exact historial_ok_refl p
  · exact Or.inr ⟨by simpa using hn, notes, (pyOrNone cb).getD "ui", by simp⟩

lemma historial_ok_set_estado (p : Pedido) (nuevo : String) (cb : Option String) :
    historial_ok p (set_estado p nuevo cb) := by
  unfold set_estado
  split_ifs with hn
  · exact historial_ok_refl p
  · exact Or.inr ⟨by simpa using fun hh => hn hh.symm, none, (pyOrNone cb).getD "system",
      by simp⟩

lemma historial_ok_review_transition (p : Pedido) (nuevo motivo : String) (xu : Option String)
    (h : nuevo ≠ p.estado) :
    historial_ok p (review_transition p nuevo motivo xu) :=
  Or.inr ⟨by simpa using h, some motivo, (pyOrNone xu).getD "ui", by simp [review_transition]⟩

/-! ### Branch characterization of `decidir_pedido` -/

lemma decidir_dec_invalida (p : Pedido) (dec : String) (notes cb : Option String)
    (h1 : pyStrip (pyLower dec) ≠ "aprobar") (h2 : pyStrip (pyLower dec) ≠ "observar")
    (h3 : pyStrip (pyLower dec) ≠ "rechazar") :
    decidir_pedido p dec notes cb =
      .error (.validation "decision debe ser: aprobar | observar | rechazar") := by
  simp only [decidir_pedido]
  rw [if_neg]
  intro h
  rcases h with h | h | h
  · exact h1 h
  · exact h2 h
  · exact h3 h

lemma decidir_aprobar_conflicto (p : Pedido) (dec : String) (notes cb : Option String)
    (hd : pyStrip (pyLower dec) = "aprobar")
    (hb : pyLower p.estado = "aprobado" ∨ pyLower p.estado = "cerrado" ∨
          pyLower p.estado = "area_pago" ∨ pyLower p.estado = "en_proceso") :
    decidir_pedido p dec notes cb = .error (.conflict "No se puede aprobar desde ese estado") := by
  simp only [decidir_pedido]
  rw [if_pos (Or.inl hd), if_pos hd, if_pos hb]

lemma decidir_aprobar_ok (p : Pedido) (dec : String) (notes cb : Option String)
    (hd : pyStrip (pyLower dec) = "aprobar")
    (hb : ¬(pyLower p.estado = "aprobado" ∨ pyLower p.estado = "cerrado" ∨
            pyLower p.estado = "area_pago" ∨ pyLower p.estado = "en_proceso")) :
    decidir_pedido p dec notes cb =
      .ok (aplicarDecision p (pyLower p.estado) "aprobado" notes cb, "aprobado") := by
  simp only [decidir_pedido]
  rw [if_pos (Or.inl hd), if_pos hd, if_neg hb]

lemma decidir_observar_sin_notes (p : Pedido) (dec : String) (notes cb : Option String)
    (hd : pyStrip (pyLower dec) = "observar") (hn : notesBlank notes = true) :
    decidir_pedido p dec notes cb = .error (.validation "notes es requerido para observar") := by
  have hna : pyStrip (pyLower dec) ≠ "aprobar" := by
    intro h; rw [hd] at h; exact absurd h (by decide)
  simp only [decidir_pedido]
  rw [if_pos (Or.inr (Or.inl hd)), if_neg hna, if_pos hd, if_pos hn]

lemma decidir_observar_ok (p : Pedido) (dec : String) (notes cb : Option String)
    (hd : pyStrip (pyLower dec) = "observar") (hn : notesBlank notes = false) :
    decidir_pedido p dec notes cb =
      .ok (aplicarDecision p (pyLower p.estado) "observado" notes cb, "observado") := by
  have hna : pyStrip (pyLower dec) ≠ "aprobar" := by
    intro h; rw [hd] at h; exact absurd h (by decide)
  simp only [decidir_pedido]
  rw [if_pos (Or.inr (Or.inl hd)), if_neg hna, if_pos hd, if_neg (by simp [hn])]

lemma decidir_rechazar_sin_notes (p : Pedido) (dec : String) (notes cb : Option String)
    (hd : pyStrip (pyLower dec) = "rechazar") (hn : notesBlank notes = true) :
    decidir_pedido p dec notes cb = .error (.validation "notes es requerido para rechazar") := by
  have hna : pyStrip (pyLower dec) ≠ "aprobar" := by
    intro h; rw [hd] at h; exact absurd h (by decide)
  have hno : pyStrip (pyLower dec) ≠ "observar" := by
    intro h; rw [hd] at h; exact absurd h (by decide)
  simp only [decidir_pedido]
  rw [if_pos (Or.inr (Or.inr hd)), if_neg hna, if_neg hno, if_pos hn]

lemma decidir_rechazar_ok (p : Pedido) (dec : String) (notes cb : Option String)
    (hd : pyStrip (pyLower dec) = "rechazar") (hn : notesBlank notes = false) :
    decidir_pedido p dec notes cb =
      .ok (aplicarDecision p (pyLower p.estado) "rechazado" notes cb, "rechazado") := by
  have hna : pyStrip (pyLower dec) ≠ "aprobar" := by
    intro h; rw [hd] at h; exact absurd h (by decide)
  have hno : pyStrip (pyLower dec) ≠ "observar" := by
    intro h; rw [hd] at h; exact absurd h (by decide)
  simp only [decidir_pedido]
  rw [if_pos (Or.inr (Or.inr hd)), if_neg hna, if_neg hno, if_neg (by simp [hn])]

/-- Complete case analysis of the pedido `decidir_pedido` produces. -/
lemma decidir_pedido_cases (p : Pedido) (dec : String) (notes cb : Option String) :
    estadoTras p (decidir_pedido p dec notes cb) = p ∨
    ∃ t, (t = "aprobado" ∨ t = "observado" ∨ t = "rechazado") ∧
      estadoTras p (decidir_pedido p dec notes cb) =
        aplicarDecision p (pyLower p.estado) t notes cb := by
  by_cases h1 : pyStrip (pyLower dec) = "aprobar"
  · by_cases hb : pyLower p.estado = "aprobado" ∨ pyLower p.estado = "cerrado" ∨
        pyLower p.estado = "area_pago" ∨ pyLower p.estado = "en_proceso"
    · rw [decidir_aprobar_conflicto p dec notes cb h1 hb]; exact Or.inl rfl
    · rw [decidir_aprobar_ok p dec notes cb h1 hb]
      exact Or.inr ⟨"aprobado", Or.inl rfl, rfl⟩
  · by_cases h2 : pyStrip (pyLower dec) = "observar"
    · cases hn : notesBlank notes
      · rw [decidir_observar_ok p dec notes cb h2 hn]
        exact Or.inr ⟨"observado", Or.inr (Or.inl rfl), rfl⟩
      · rw [decidir_observar_sin_notes p dec notes cb h2 hn]; exact Or.inl rfl
    · by_cases h3 : pyStrip (pyLower dec) = "rechazar"
      · cases hn : notesBlank notes
        · rw [decidir_rechazar_ok p dec notes cb h3 hn]
          exact Or.inr ⟨"rechazado", Or.inr (Or.inr rfl), rfl⟩
        · rw [decidir_rechazar_sin_notes p dec notes cb h3 hn]; exact Or.inl rfl
      · rw [decidir_dec_invalida p dec notes cb h1 h2 h3]; exact Or.inl rfl

/-! ### Branch characterization of `ui_pedidos_set_estado` -/

/-- The single historial row `ui_pedidos_set_estado` appends on an accepted
change. -/
def uiHistRow (p : Pedido) (estado_req : String) (motivo x_user : Option String) : HistRow :=
  { estado_anterior := p.estado, estado_nuevo := estado_req, motivo := motivo,
    changed_by := (pyOrNone x_user).getD "ui" }

lemma ui_set_estado_invalido (p : Pedido) (est : String) (motivo xu xs : Option String)
    (h : ¬(est = "aprobado" ∨ est = "en_revision")) :
    ui_pedidos_set_estado p est motivo xu xs =
      .error (.validation "estado debe ser aprobado o en_revision") := by
  simp only [ui_pedidos_set_estado]
  rw [if_neg h]

lemma ui_set_auth_error (p : Pedido) (est : String) (motivo xu xs : Option String)
    (e : ApiError) (hreq : est = "aprobado" ∨ est = "en_revision")
    (hA : ui_allowed p xs = .error e) :
    ui_pedidos_set_estado p est motivo xu xs = .error e := by
  simp only [ui_pedidos_set_estado]
  rw [if_pos hreq, hA]

lemma ui_set_denegado (p : Pedido) (est : String) (motivo xu xs : Option String)
    (hreq : est = "aprobado" ∨ est = "en_revision")
    (hA : ui_allowed p xs = .ok false) :
    ui_pedidos_set_estado p est motivo xu xs =
      .error (.forbidden "Sin permisos para cambiar el estado de este pedido") := by
  simp only [ui_pedidos_set_estado]
  rw [if_pos hreq, hA]
  rfl

lemma ui_set_sin_cambios (p : Pedido) (est : String) (motivo xu xs : Option String)
    (hreq : est = "aprobado" ∨ est = "en_revision")
    (hA : ui_allowed p xs = .ok true) (heq : p.estado = est) :
    ui_pedidos_set_estado p est motivo xu xs =
      .ok (p, { estado := est, previous := p.estado, updated := false }) := by
  simp only [ui_pedidos_set_estado]
  rw [if_pos hreq, hA]
  simp only [Bool.not_true, Bool.false_eq_true, if_false]
  rw [if_pos heq]

lemma ui_set_actualiza (p : Pedido) (est : String) (motivo xu xs : Option String)
    (hreq : est = "aprobado" ∨ est = "en_revision")
    (hA : ui_allowed p xs = .ok true) (hne : ¬ p.estado = est) :
    ui_pedidos_set_estado p est motivo xu xs =
      .ok ({ p with estado := est, historial := p.historial ++ [uiHistRow p est motivo xu] },
           { estado := est, previous := p.estado, updated := true }) := by
  simp only [ui_pedidos_set_estado]
  rw [if_pos hreq, hA]
  simp only [Bool.not_true, Bool.false_eq_true, if_false]
  rw [if_neg hne]
  rfl

/-! ### Branch characterization of `review_archivo` (archivos.py) -/

lemma review_decision_invalida (a : ArchivoRow) (p : Pedido) (decision : String)
    (notes xu : Option String)
    (h1 : pyLower (pyStrip decision) ≠ "aprobado") (h2 : pyLower (pyStrip decision) ≠ "observado") :
    review_archivo a p decision notes xu =
      .error (.validation "decision debe ser aprobado u observado") := by
  simp only [review_archivo]
  rw [if_neg]
  intro h
  rcases h with h | h
  · exact h1 h
  · exact h2 h

lemma review_observado (a : ArchivoRow) (p : Pedido) (decision : String)
    (notes xu : Option String) (hd : pyLower (pyStrip decision) = "observado") :
    review_archivo a p decision notes xu =
      .ok (review_update_archivo a "observado" notes xu, p) := by
  simp only [review_archivo]
  rw [hd]
  rfl

lemma review_presupuesto_enviado (a : ArchivoRow) (p : Pedido) (decision : String)
    (notes xu : Option String) (hd : pyLower (pyStrip decision) = "aprobado")
    (ht : pyLower a.tipo_doc = "presupuesto_1" ∨ pyLower a.tipo_doc = "presupuesto_2")
    (he : p.estado = "enviado") :
    review_archivo a p decision notes xu =
      .ok (review_update_archivo a "aprobado" notes xu,
           review_transition p "aprobado" "aprobación de presupuesto" xu) := by
  simp only [review_archivo]
  rw [hd]
  rcases ht with h | h <;> rw [h, if_pos he] <;> rfl

lemma review_presupuesto_no_enviado (a : ArchivoRow) (p : Pedido) (decision : String)
    (notes xu : Option String) (hd : pyLower (pyStrip decision) = "aprobado")
    (ht : pyLower a.tipo_doc = "presupuesto_1" ∨ pyLower a.tipo_doc = "presupuesto_2")
    (he : ¬ p.estado = "enviado") :
    review_archivo a p decision notes xu =
      .ok (review_update_archivo a "aprobado" notes xu, p) := by
  simp only [review_archivo]
  rw [hd]
  rcases ht with h | h <;> rw [h, if_neg he] <;> rfl

lemma review_formal_mueve (a : ArchivoRow) (p : Pedido) (decision : String)
    (notes xu : Option String) (hd : pyLower (pyStrip decision) = "aprobado")
    (ht : pyLower a.tipo_doc = "formal_pdf") (he : ¬ p.estado = "en_proceso") :
    review_archivo a p decision notes xu =
      .ok (review_update_archivo a "aprobado" notes xu,
           review_transition p "en_proceso" "aprobación de formal_pdf" xu) := by
  simp only [review_archivo]
  rw [hd, ht, if_pos he]
  rfl

lemma review_formal_queda (a : ArchivoRow) (p : Pedido) (decision : String)
    (notes xu : Option String) (hd : pyLower (pyStrip decision) = "aprobado")
    (ht : pyLower a.tipo_doc = "formal_pdf") (he : p.estado = "en_proceso") :
    review_archivo a p decision notes xu =
      .ok (review_update_archivo a "aprobado" notes xu, p) := by
  simp only [review_archivo]
  rw [hd, ht, if_neg (not_not_intro he)]
  rfl

lemma review_exp1_mueve (a : ArchivoRow) (p : Pedido) (decision : String)
    (notes xu : Option String) (hd : pyLower (pyStrip decision) = "aprobado")
    (ht : pyLower a.tipo_doc = "expediente_1") (he : ¬ p.estado = "area_pago") :
    review_archivo a p decision notes xu =
      .ok (review_update_archivo a "aprobado" notes xu,
           review_transition p "area_pago" "aprobación de expediente_1" xu) := by
  simp only [review_archivo]
  rw [hd, ht, if_pos he]
  rfl

lemma review_exp1_queda (a : ArchivoRow) (p : Pedido) (decision : String)
    (notes xu : Option String) (hd : pyLower (pyStrip decision) = "aprobado")
    (ht : pyLower a.tipo_doc = "expediente_1") (he : p.estado = "area_pago") :
    review_archivo a p decision notes xu =
      .ok (review_update_archivo a "aprobado" notes xu, p) := by
  simp only [review_archivo]
  rw [hd, ht, if_neg (not_not_intro he)]
  rfl

lemma review_exp2_mueve (a : ArchivoRow) (p : Pedido) (decision : String)
    (notes xu : Option String) (hd : pyLower (pyStrip decision) = "aprobado")
    (ht : pyLower a.tipo_doc = "expediente_2") (he : ¬ p.estado = "cerrado") :
    review_archivo a p decision notes xu =
      .ok (review_update_archivo a "aprobado" notes xu,
           review_transition p "cerrado" "aprobación de expediente_2" xu) := by
  simp only [review_archivo]
  rw [hd, ht, if_pos he]
  rfl

lemma review_exp2_queda (a : ArchivoRow) (p : Pedido) (decision : String)
    (notes xu : Option String) (hd : pyLower (pyStrip decision) = "aprobado")
    (ht : pyLower a.tipo_doc = "expediente_2") (he : p.estado = "cerrado") :
    review_archivo a p decision notes xu =
      .ok (review_update_archivo a "aprobado" notes xu, p) := by
  simp only [review_archivo]
  rw [hd, ht, if_neg (not_not_intro he)]
  rfl

lemma review_otro_tipo (a : ArchivoRow) (p : Pedido) (decision : String)
    (notes xu : Option String) (hd : pyLower (pyStrip decision) = "aprobado")
    (h1 : pyLower a.tipo_doc ≠ "presupuesto_1") (h2 : pyLower a.tipo_doc ≠ "presupuesto_2")
    (h3 : pyLower a.tipo_doc ≠ "formal_pdf") (h4 : pyLower a.tipo_doc ≠ "expediente_1")
    (h5 : pyLower a.tipo_doc ≠ "expediente_2") :
    review_archivo a p decision notes xu =
      .ok (review_update_archivo a "aprobado" notes xu, p) := by
  have hpres : ¬(pyLower a.tipo_doc = "presupuesto_1" ∨ pyLower a.tipo_doc = "presupuesto_2") := by
    rintro (h | h)
    · exact h1 h
    · exact h2 h
  simp only [review_archivo]
  rw [hd, if_neg hpres, if_neg h3, if_neg h4, if_neg h5]
  rfl

/-- Complete case analysis of the pedido `review_archivo` produces. -/
lemma review_archivo_pedido_cases (a : ArchivoRow) (p : Pedido) (decision : String)
    (notes xu : Option String) :
    pedidoTrasReview p (review_archivo a p decision notes xu) = p ∨
    ∃ t m, (t = "aprobado" ∨ t = "en_proceso" ∨ t = "area_pago" ∨ t = "cerrado") ∧
      t ≠ p.estado ∧
      pedidoTrasReview p (review_archivo a p decision notes xu) =
        review_transition p t m xu := by
  by_cases hd : pyLower (pyStrip decision) = "aprobado"
  · by_cases ht : pyLower a.tipo_doc = "presupuesto_1" ∨ pyLower a.tipo_doc = "presupuesto_2"
    · by_cases he : p.estado = "enviado"
      · rw [review_presupuesto_enviado a p decision notes xu hd ht he]
        exact Or.inr ⟨"aprobado", "aprobación de presupuesto", Or.inl rfl,
          by rw [he]; decide, rfl⟩
      · rw [review_presupuesto_no_enviado a p decision notes xu hd ht he]; exact Or.inl rfl
    · rw [not_or] at ht
      by_cases h3 : pyLower a.tipo_doc = "formal_pdf"
      · by_cases he : p.estado = "en_proceso"
        · rw [review_formal_queda a p decision notes xu hd h3 he]; exact Or.inl rfl
        · rw [review_formal_mueve a p decision notes xu hd h3 he]
          exact Or.inr ⟨"en_proceso", "aprobación de formal_pdf", Or.inr (Or.inl rfl),
            fun hh => he hh.symm, rfl⟩
      · by_cases h4 : pyLower a.tipo_doc = "expediente_1"
        · by_cases he : p.estado = "area_pago"
          · rw [review_exp1_queda a p decision notes xu hd h4 he]; exact Or.inl rfl
          · rw [review_exp1_mueve a p decision notes xu hd h4 he]
            exact Or.inr ⟨"area_pago", "aprobación de expediente_1", Or.inr (Or.inr (Or.inl rfl)),
              fun hh => he hh.symm, rfl⟩
        · by_cases h5 : pyLower a.tipo_doc = "expediente_2"
          · by_cases he : p.estado = "cerrado"
            · rw [review_exp2_queda a p decision notes xu hd h5 he]; exact Or.inl rfl
            · rw [review_exp2_mueve a p decision notes xu hd h5 he]
              exact Or.inr ⟨"cerrado", "aprobación de expediente_2", Or.inr (Or.inr (Or.inr rfl)),
                fun hh => he hh.symm, rfl⟩
          · rw [review_otro_tipo a p decision notes xu hd ht.1 ht.2 h3 h4 h5]; exact Or.inl rfl
  · by_cases ho : pyLower (pyStrip decision) = "observado"
    · rw [review_observado a p decision notes xu ho]; exact Or.inl rfl
    · rw [review_decision_invalida a p decision notes xu hd ho]; exact Or.inl rfl

/-! ### Branch characterization of `ui_review_archivo` (ui.py) -/

lemma ui_review_decision_invalida (a : ArchivoRow) (p : Pedido) (decision : String)
    (notes xu : Option String) (h1 : decision ≠ "aprobado") (h2 : decision ≠ "observado") :
    ui_review_archivo a p decision notes xu =
      .error (.validation "decision debe ser aprobado u observado") := by
  simp only [ui_review_archivo]
  rw [if_neg]
  intro h
  rcases h with h | h
  · exact h1 h
  · exact h2 h

lemma ui_review_observado (a : ArchivoRow) (p : Pedido) (decision : String)
    (notes xu : Option String) (hd : decision = "observado") :
    ui_review_archivo a p decision notes xu =
      .ok (review_update_archivo a "observado" notes xu, p) := by
  simp only [ui_review_archivo]
  rw [hd]
  rfl

lemma ui_review_sin_transicion (a : ArchivoRow) (p : Pedido) (decision : String)
    (notes xu : Option String) (hd : decision = "aprobado")
    (h1 : a.tipo_doc ≠ "formal_pdf") (h2 : a.tipo_doc ≠ "expediente_1")
    (h3 : a.tipo_doc ≠ "expediente_2") :
    ui_review_archivo a p decision notes xu =
      .ok (review_update_archivo a "aprobado" notes xu, p) := by
  simp only [ui_review_archivo]
  rw [hd, if_neg h1, if_neg h2, if_neg h3]
  rfl

lemma ui_review_formal_mueve (a : ArchivoRow) (p : Pedido) (decision : String)
    (notes xu : Option String) (hd : decision = "aprobado")
    (ht : a.tipo_doc = "formal_pdf") (he : ¬ p.estado = "en_proceso") :
    ui_review_archivo a p decision notes xu =
      .ok (review_update_archivo a "aprobado" notes xu,
           review_transition p "en_proceso" "aprobación de formal_pdf" xu) := by
  simp only [ui_review_archivo]
  rw [hd, ht]
  show (if p.estado ≠ "en_proceso" then
          Except.ok (review_update_archivo a "aprobado" notes xu,
            review_transition p "en_proceso" ("aprobación de " ++ "formal_pdf") xu)
        else Except.ok (review_update_archivo a "aprobado" notes xu, p)) = _
  rw [if_pos he]
  rfl

lemma ui_review_formal_queda (a : ArchivoRow) (p : Pedido) (decision : String)
    (notes xu : Option String) (hd : decision = "aprobado")
    (ht : a.tipo_doc = "formal_pdf") (he : p.estado = "en_proceso") :
    ui_review_archivo a p decision notes xu =
      .ok (review_update_archivo a "aprobado" notes xu, p) := by
  simp only [ui_review_archivo]
  rw [hd, ht]
  show (if p.estado ≠ "en_proceso" then
          Except.ok (review_update_archivo a "aprobado" notes xu,
            review_transition p "en_proceso" ("aprobación de " ++ "formal_pdf") xu)
        else Except.ok (review_update_archivo a "aprobado" notes xu, p)) = _
  rw [if_neg (not_not_intro he)]

lemma ui_review_exp1_mueve (a : ArchivoRow) (p : Pedido) (decision : String)
    (notes xu : Option String) (hd : decision = "aprobado")
    (ht : a.tipo_doc = "expediente_1") (he : ¬ p.estado = "area_pago") :
    ui_review_archivo a p decision notes xu =
      .ok (review_update_archivo a "aprobado" notes xu,
           review_transition p "area_pago" "aprobación de expediente_1" xu) := by
  simp only [ui_review_archivo]
  rw [hd, ht]
  show (if p.estado ≠ "area_pago" then
          Except.ok (review_update_archivo a "aprobado" notes xu,
            review_transition p "area_pago" ("aprobación de " ++ "expediente_1") xu)
        else Except.ok (review_update_archivo a "aprobado" notes xu, p)) = _
  rw [if_pos he]
  rfl

lemma ui_review_exp1_queda (a : ArchivoRow) (p : Pedido) (decision : String)
    (notes xu : Option String) (hd : decision = "aprobado")
    (ht : a.tipo_doc = "expediente_1") (he : p.estado = "area_pago") :
    ui_review_archivo a p decision notes xu =
      .ok (review_update_archivo a "aprobado" notes xu, p) := by
  simp only [ui_review_archivo]
  rw [hd, ht]
  show (if p.estado ≠ "area_pago" then
          Except.ok (review_update_archivo a "aprobado" notes xu,
            review_transition p "area_pago" ("aprobación de " ++ "expediente_1") xu)
        else Except.ok (review_update_archivo a "aprobado" notes xu, p)) = _
  rw [if_neg (not_not_intro he)]

lemma ui_review_exp2_mueve (a : ArchivoRow) (p : Pedido) (decision : String)
    (notes xu : Option String) (hd : decision = "aprobado")
    (ht : a.tipo_doc = "expediente_2") (he : ¬ p.estado = "cerrado") :
    ui_review_archivo a p decision notes xu =
      .ok (review_update_archivo a "aprobado" notes xu,
           review_transition p "cerrado" "aprobación de expediente_2" xu) := by
  simp only [ui_review_archivo]
  rw [hd, ht]
  show (if p.estado ≠ "cerrado" then
          Except.ok (review_update_archivo a "aprobado" notes xu,
            review_transition p "cerrado" ("aprobación de " ++ "expediente_2") xu)
        else Except.ok (review_update_archivo a "aprobado" notes xu, p)) = _
  rw [if_pos he]
  rfl

lemma ui_review_exp2_queda (a : ArchivoRow) (p : Pedido) (decision : String)
    (notes xu : Option String) (hd : decision = "aprobado")
    (ht : a.tipo_doc = "expediente_2") (he : p.estado = "cerrado") :
    ui_review_archivo a p decision notes xu =
      .ok (review_update_archivo a "aprobado" notes xu, p) := by
  simp only [ui_review_archivo]
  rw [hd, ht]
  show (if p.estado ≠ "cerrado" then
          Except.ok (review_update_archivo a "aprobado" notes xu,
            review_transition p "cerrado" ("aprobación de " ++ "expediente_2") xu)
        else Except.ok (review_update_archivo a "aprobado" notes xu, p)) = _
  rw [if_neg (not_not_intro he)]

/-- Complete case analysis of the pedido `ui_review_archivo` produces. -/
lemma ui_review_pedido_cases (a : ArchivoRow) (p : Pedido) (decision : String)
    (notes xu : Option String) :
    pedidoTrasReview p (ui_review_archivo a p decision notes xu) = p ∨
    ∃ t m, (t = "en_proceso" ∨ t = "area_pago" ∨ t = "cerrado") ∧ t ≠ p.estado ∧
      pedidoTrasReview p (ui_review_archivo a p decision notes xu) =
        review_transition p t m xu := by
  by_cases hd : decision = "aprobado"
  · by_cases h1 : a.tipo_doc = "formal_pdf"
    · by_cases he : p.estado = "en_proceso"
      · rw [ui_review_formal_queda a p decision notes xu hd h1 he]; exact Or.inl rfl
      · rw [ui_review_formal_mueve a p decision notes xu hd h1 he]
        exact Or.inr ⟨"en_proceso", "aprobación de formal_pdf", Or.inl rfl,
          fun hh => he hh.symm, rfl⟩
    · by_cases h2 : a.tipo_doc = "expediente_1"
      · by_cases he : p.estado = "area_pago"
        · rw [ui_review_exp1_queda a p decision notes xu hd h2 he]; exact Or.inl rfl
        · rw [ui_review_exp1_mueve a p decision notes xu hd h2 he]
          exact Or.inr ⟨"area_pago", "aprobación de expediente_1", Or.inr (Or.inl rfl),
            fun hh => he hh.symm, rfl⟩
      · by_cases h3 : a.tipo_doc = "expediente_2"
        · by_cases he : p.estado = "cerrado"
          · rw [ui_review_exp2_queda a p decision notes xu hd h3 he]; exact Or.inl rfl
          · rw [ui_review_exp2_mueve a p decision notes xu hd h3 he]
            exact Or.inr ⟨"cerrado", "aprobación de expediente_2", Or.inr (Or.inr rfl),
              fun hh => he hh.symm, rfl⟩
        · rw [ui_review_sin_transicion a p decision notes xu hd h1 h2 h3]; exact Or.inl rfl
  · by_cases ho : decision = "observado"
    · rw [ui_review_observado a p decision notes xu ho]; exact Or.inl rfl
    · rw [ui_review_decision_invalida a p decision notes xu hd ho]; exact Or.inl rfl

/-! ### Characterization of `upload_transition` -/

lemma upload_transition_formal (p : Pedido)
    (h : p.estado = "borrador" ∨ p.estado = "enviado" ∨ p.estado = "en_revision" ∨
         p.estado = "aprobado") :
    upload_transition p "formal_pdf" = set_estado p "en_proceso" (some "upload:formal_pdf") := by
  unfold upload_transition
  rw [if_pos (show ("formal_pdf" : String) = "formal_pdf" from rfl), if_pos h]

lemma upload_transition_formal_fuera (p : Pedido)
    (h : ¬(p.estado = "borrador" ∨ p.estado = "enviado" ∨ p.estado = "en_revision" ∨
           p.estado = "aprobado")) :
    upload_transition p "formal_pdf" = p := by
  unfold upload_transition
  rw [if_pos (show ("formal_pdf" : String) = "formal_pdf" from rfl), if_neg h]

lemma upload_transition_exp1 (p : Pedido) (h : ¬ p.estado = "cerrado") :
    upload_transition p "expediente_1" = set_estado p "area_pago" (some "upload:expediente_1") := by
  unfold upload_transition
  rw [if_neg (show ¬("expediente_1" : String) = "formal_pdf" by decide),
    if_pos (show ("expediente_1" : String) = "expediente_1" from rfl), if_pos h]

lemma upload_transition_exp1_cerrado (p : Pedido) (h : p.estado = "cerrado") :
    upload_transition p "expediente_1" = p := by
  unfold upload_transition
  rw [if_neg (show ¬("expediente_1" : String) = "formal_pdf" by decide),
    if_pos (show ("expediente_1" : String) = "expediente_1" from rfl),
    if_neg (not_not_intro h)]

lemma upload_transition_exp2 (p : Pedido) (h : ¬ p.estado = "cerrado") :
    upload_transition p "expediente_2" = set_estado p "cerrado" (some "upload:expediente_2") := by
  unfold upload_transition
  rw [if_neg (show ¬("expediente_2" : String) = "formal_pdf" by decide),
    if_neg (show ¬("expediente_2" : String) = "expediente_1" by decide),
    if_pos (show ("expediente_2" : String) = "expediente_2" from rfl), if_pos h]

lemma upload_transition_exp2_cerrado (p : Pedido) (h : p.estado = "cerrado") :
    upload_transition p "expediente_2" = p := by
  unfold upload_transition
  rw [if_neg (show ¬("expediente_2" : String) = "formal_pdf" by decide),
    if_neg (show ¬("expediente_2" : String) = "expediente_1" by decide),
    if_pos (show ("expediente_2" : String) = "expediente_2" from rfl),
    if_neg (not_not_intro h)]

/-- Complete case analysis of `upload_transition`. -/
lemma upload_transition_cases (p : Pedido) (td : String) :
    upload_transition p td = p ∨
    ∃ t cb, (t = "en_proceso" ∨ t = "area_pago" ∨ t = "cerrado") ∧
      upload_transition p td = set_estado p t cb := by
  by_cases h1 : td = "formal_pdf"
  · subst h1
    by_cases h : p.estado = "borrador" ∨ p.estado = "enviado" ∨ p.estado = "en_revision" ∨
        p.estado = "aprobado"
    · rw [upload_transition_formal p h]
      exact Or.inr ⟨"en_proceso", some "upload:formal_pdf", Or.inl rfl, rfl⟩
    · rw [upload_transition_formal_fuera p h]; exact Or.inl rfl
  · by_cases h2 : td = "expediente_1"
    · subst h2
      by_cases h : p.estado = "cerrado"
      · rw [upload_transition_exp1_cerrado p h]; exact Or.inl rfl
      · rw [upload_transition_exp1 p h]
        exact Or.inr ⟨"area_pago", some "upload:expediente_1", Or.inr (Or.inl rfl), rfl⟩
    · by_cases h3 : td = "expediente_2"
      · subst h3
        by_cases h : p.estado = "cerrado"
        · rw [upload_transition_exp2_cerrado p h]; exact Or.inl rfl
        · rw [upload_transition_exp2 p h]
          exact Or.inr ⟨"cerrado", some "upload:expediente_2", Or.inr (Or.inr rfl), rfl⟩
      · left
        simp only [upload_transition]
        rw [if_neg h1, if_neg h2, if_neg h3]

/-! ### Small closure and frame lemmas -/

lemma aplicarDecision_estado (p : Pedido) (ea n : String) (notes cb : Option String) :
    (aplicarDecision p ea n notes cb).estado = p.estado ∨
    (aplicarDecision p ea n notes cb).estado = n := by
  unfold aplicarDecision
  split_ifs <;> simp

lemma set_estado_estado (p : Pedido) (n : String) (cb : Option String) :
    (set_estado p n cb).estado = p.estado ∨ (set_estado p n cb).estado = n := by
  unfold set_estado
  split_ifs <;> simp

lemma set_estado_cambia (p : Pedido) (n : String) (cb : Option String) (h : ¬ p.estado = n) :
    set_estado p n cb =
      { p with
        estado := n
        historial := p.historial ++
          [{ estado_anterior := p.estado, estado_nuevo := n, motivo := none,
             changed_by := (pyOrNone cb).getD "system" }] } := by
  unfold set_estado
  rw [if_neg h]

/-- `ui_allowed` only reads `presupuesto_estimado` and `secretaria_nombre`,
so it is stable under estado/historial updates. -/
lemma ui_allowed_congr (q p : Pedido) (xs : Option String)
    (h1 : q.presupuesto_estimado = p.presupuesto_estimado)
    (h2 : q.secretaria_nombre = p.secretaria_nombre) :
    ui_allowed q xs = ui_allowed p xs := by
  simp only [ui_allowed, h1, h2]

/-! ### C1 -/

lemma ui_set_historial_ok (p : Pedido) (est : String) (motivo xu xs : Option String) :
    historial_ok p (estadoTras p (ui_pedidos_set_estado p est motivo xu xs)) := by
  by_cases hreq : est = "aprobado" ∨ est = "en_revision"
  · cases hA : ui_allowed p xs with
    | error e =>
      rw [ui_set_auth_error p est motivo xu xs e hreq hA]
      exact historial_ok_refl p
    | ok b =>
      cases b with
      | false =>
        rw [ui_set_denegado p est motivo xu xs hreq hA]
        exact historial_ok_refl p
      | true =>
        by_cases heq : p.estado = est
        · rw [ui_set_sin_cambios p est motivo xu xs hreq hA heq]
          exact historial_ok_refl p
        · rw [ui_set_actualiza p est motivo xu xs hreq hA heq]
          refine Or.inr ⟨fun hh => heq hh.symm, motivo, (pyOrNone xu).getD "ui", rfl⟩
  · rw [ui_set_estado_invalido p est motivo xu xs hreq]
    exact historial_ok_refl p

/-! ### Example rows used by the witnesses and counterexamples -/

/-- The scenario pedido of the spec: `enviado`, `presupuesto_estimado = 5,000,000`. -/
def pedidoEnviado : Pedido :=
  { numero := "EXP-2025-0071", estado := "enviado", presupuesto_estimado := some 5000000,
    secretaria_nombre := "SECRETARÍA DE OBRAS PÚBLICAS", historial := [] }

def pedidoCerrado : Pedido :=
  { numero := "EXP-2025-0099", estado := "cerrado", presupuesto_estimado := none,
    secretaria_nombre := "SECRETARÍA DE OBRAS PÚBLICAS", historial := [] }

def pedidoBorrador : Pedido :=
  { numero := "EXP-2025-0003", estado := "borrador", presupuesto_estimado := some 100000,
    secretaria_nombre := "SECRETARÍA DE OBRAS PÚBLICAS", historial := [] }

def pedidoObservado : Pedido :=
  { numero := "EXP-2025-0042", estado := "observado", presupuesto_estimado := some 200000,
    secretaria_nombre := "SECRETARÍA DE OBRAS PÚBLICAS", historial := [] }

def archivoPresupuesto : ArchivoRow :=
  { pedido_id := 71, tipo_doc := "presupuesto_1",
    storage_path := "supabase://pedidos-prod/pedido_71/presupuesto_1/a.pdf",
    file_name := "presupuesto.pdf", content_type := "application/pdf", bytes := 1024,
    review_status := none, review_notes := none, reviewed_by := none, reviewed_at := none }

def archivoFormal : ArchivoRow :=
  { pedido_id := 99, tipo_doc := "formal_pdf",
    storage_path := "supabase://pedidos-prod/pedido_99/formal_pdf/b.pdf",
    file_name := "formal.pdf", content_type := "application/pdf", bytes := 2048,
    review_status := none, review_notes := none, reviewed_by := none, reviewed_at := none }

/-! ### Claim theorems -/

/-- C1: for every pedido whose estado is one of the documented values,
every core operation that changes `estado` — the manual decision endpoint,
the direct estado endpoint, both document-review endpoints, the automatic
upload transition, and `_set_estado` itself — appends exactly one
`pedido_historial` row whose `estado_anterior` is the estado immediately
before the change and whose `estado_nuevo` is the new estado, and no
operation changes `estado` without appending such a row.  Each operation is
modelled as a single atomic function (one database transaction); error
outcomes roll the transaction back and are therefore modelled as leaving the
state unchanged. -/
theorem claim_C1_historial_por_transicion (p : Pedido) (a : ArchivoRow)
    (dec est td : String) (notes cb motivo xu xs : Option String)
    (hv : p.estado ∈ estadosValidos) :
    historial_ok p (estadoTras p (decidir_pedido p dec notes cb)) ∧
    historial_ok p (estadoTras p (ui_pedidos_set_estado p est motivo xu xs)) ∧
    historial_ok p (pedidoTrasReview p (review_archivo a p dec notes xu)) ∧
    historial_ok p (pedidoTrasReview p (ui_review_archivo a p dec notes xu)) ∧
    historial_ok p (upload_transition p td) ∧
    historial_ok p (set_estado p est cb) := by
  refine ⟨?_, ui_set_historial_ok p est motivo xu xs, ?_, ?_, ?_, historial_ok_set_estado p est cb⟩
  · rcases decidir_pedido_cases p dec notes cb with h | ⟨t, -, h⟩
    · rw [h]; exact historial_ok_refl p
    · rw [h]; exact historial_ok_aplicarDecision p t notes cb (pyLower_of_valid hv)
  · rcases review_archivo_pedido_cases a p dec notes xu with h | ⟨t, m, -, hne, h⟩
    · rw [h]; exact historial_ok_refl p
    · rw [h]; exact historial_ok_review_transition p t m xu hne
  · rcases ui_review_pedido_cases a p dec notes xu with h | ⟨t, m, -, hne, h⟩
    · rw [h]; exact historial_ok_refl p
    · rw [h]; exact historial_ok_review_transition p t m xu hne
  · rcases upload_transition_cases p td with h | ⟨t, cb2, -, h⟩
    · rw [h]; exact historial_ok_refl p
    · rw [h]; exact historial_ok_set_estado p t cb2

/-- Witness for C1 at a concrete pedido and inputs. -/
theorem claim_C1_witness :
    pedidoEnviado.estado ∈ estadosValidos ∧
    (historial_ok pedidoEnviado
        (estadoTras pedidoEnviado (decidir_pedido pedidoEnviado "aprobar" none none)) ∧
     historial_ok pedidoEnviado
        (estadoTras pedidoEnviado
          (ui_pedidos_set_estado pedidoEnviado "aprobado" none none
            (some "Secretaría de Economía"))) ∧
     historial_ok pedidoEnviado
        (pedidoTrasReview pedidoEnviado
          (review_archivo archivoPresupuesto pedidoEnviado "aprobar" none none)) ∧
     historial_ok pedidoEnviado
        (pedidoTrasReview pedidoEnviado
          (ui_review_archivo archivoPresupuesto pedidoEnviado "aprobar" none none)) ∧
     historial_ok pedidoEnviado (upload_transition pedidoEnviado "formal_pdf") ∧
     historial_ok pedidoEnviado (set_estado pedidoEnviado "aprobado" none)) :=
  ⟨by decide,
   claim_C1_historial_por_transicion pedidoEnviado archivoPresupuesto
     "aprobar" "aprobado" "formal_pdf" none none none none
     (some "Secretaría de Economía") (by decide)⟩

/-- C2 (amended): closure in the documented estado set.  Every estado value
any core operation produces is one of the nine documented values — no
undocumented estado is ever observed. -/
theorem claim_C2_estados_documentados (p : Pedido) (a : ArchivoRow)
    (dec est td : String) (notes cb motivo xu xs : Option String)
    (hv : p.estado ∈ estadosValidos) :
    (estadoTras p (decidir_pedido p dec notes cb)).estado ∈ estadosValidos ∧
    (estadoTras p (ui_pedidos_set_estado p est motivo xu xs)).estado ∈ estadosValidos ∧
    (pedidoTrasReview p (review_archivo a p dec notes xu)).estado ∈ estadosValidos ∧
    (pedidoTrasReview p (ui_review_archivo a p dec notes xu)).estado ∈ estadosValidos ∧
    (upload_transition p td).estado ∈ estadosValidos := by
  refine ⟨?_, ?_, ?_, ?_, ?_⟩
  · rcases decidir_pedido_cases p dec notes cb with h | ⟨t, ht, h⟩
    · rw [h]; exact hv
    · rw [h]
      rcases aplicarDecision_estado p (pyLower p.estado) t notes cb with h2 | h2
      · rw [h2]; exact hv
      · rw [h2]; rcases ht with rfl | rfl | rfl <;> decide
  · by_cases hreq : est = "aprobado" ∨ est = "en_revision"
    · cases hA : ui_allowed p xs with
      | error e => rw [ui_set_auth_error p est motivo xu xs e hreq hA]; exact hv
      | ok b =>
        cases b with
        | false => rw [ui_set_denegado p est motivo xu xs hreq hA]; exact hv
        | true =>
          by_cases heq : p.estado = est
          · rw [ui_set_sin_cambios p est motivo xu xs hreq hA heq]; exact hv
          · rw [ui_set_actualiza p est motivo xu xs hreq hA heq]
            rcases hreq with rfl | rfl
            · show ("aprobado" : String) ∈ estadosValidos
              decide
            · show ("en_revision" : String) ∈ estadosValidos
              decide
    · rw [ui_set_estado_invalido p est motivo xu xs hreq]; exact hv
  · rcases review_archivo_pedido_cases a p dec notes xu with h | ⟨t, m, ht, -, h⟩
    · rw [h]; exact hv
    · rw [h]
      show t ∈ estadosValidos
      rcases ht with rfl | rfl | rfl | rfl <;> decide
  · rcases ui_review_pedido_cases a p dec notes xu with h | ⟨t, m, ht, -, h⟩
    · rw [h]; exact hv
    · rw [h]
      show t ∈ estadosValidos
      rcases ht with rfl | rfl | rfl <;> decide
  · rcases upload_transition_cases p td with h | ⟨t, cb2, ht, h⟩
    · rw [h]; exact hv
    · rw [h]
      rcases set_estado_estado p t cb2 with h2 | h2
      · rw [h2]; exact hv
      · rw [h2]; rcases ht with rfl | rfl | rfl <;> decide

/-- Witness for C2 at a concrete pedido and inputs. -/
theorem claim_C2_witness :
    pedidoCerrado.estado ∈ estadosValidos ∧
    ((estadoTras pedidoCerrado
        (decidir_pedido pedidoCerrado "observar" (some "faltan firmas") none)).estado
        ∈ estadosValidos ∧
     (estadoTras pedidoCerrado
        (ui_pedidos_set_estado pedidoCerrado "en_revision" none none
          (some "Secretaría de Economía"))).estado ∈ estadosValidos ∧
     (pedidoTrasReview pedidoCerrado
        (review_archivo archivoFormal pedidoCerrado "observar" (some "faltan firmas") none)).estado
        ∈ estadosValidos ∧
     (pedidoTrasReview pedidoCerrado
        (ui_review_archivo archivoFormal pedidoCerrado "observar" (some "faltan firmas") none)).estado
        ∈ estadosValidos ∧
     (upload_transition pedidoCerrado "expediente_1").estado ∈ estadosValidos) :=
  ⟨by decide,
   claim_C2_estados_documentados pedidoCerrado archivoFormal
     "observar" "en_revision" "expediente_1" (some "faltan firmas") none none none
     (some "Secretaría de Economía") (by decide)⟩

/-- C2 counterexample: the claim also asserts that no operation ever moves a
pedido from a later state of the forward chain back to an earlier one, but
approving a `formal_pdf` review of a pedido that is already `cerrado`
(position 6 of the chain) moves it back to `en_proceso` (position 4). -/
theorem claim_C2_counterexample :
    pedidoCerrado.estado = "cerrado" ∧
    (pedidoTrasReview pedidoCerrado
        (review_archivo archivoFormal pedidoCerrado "aprobado" none none)).estado =
      "en_proceso" ∧
    "cerrado" ∈ cadenaPrincipal ∧ "en_proceso" ∈ cadenaPrincipal ∧
    List.indexOf "en_proceso" cadenaPrincipal < List.indexOf "cerrado" cadenaPrincipal := by
  decide

/-- C3 (amended): on the archivos.py review endpoint, approving a
`presupuesto_1`/`presupuesto_2` document of a pedido in `enviado` moves the
pedido to `aprobado` and appends exactly one historial row
`(enviado → aprobado)` with motivo "aprobación de presupuesto"; but the
claim does NOT hold for every document-review operation of the core: the
ui.py review endpoint has no presupuesto case and leaves the pedido (estado
and historial) unchanged. -/
theorem claim_C3_presupuesto_aprobado (a : ArchivoRow) (p : Pedido)
    (notes xu : Option String)
    (ht : pyLower a.tipo_doc = "presupuesto_1" ∨ pyLower a.tipo_doc = "presupuesto_2")
    (he : p.estado = "enviado") :
    review_archivo a p "aprobado" notes xu =
      .ok (review_update_archivo a "aprobado" notes xu,
           review_transition p "aprobado" "aprobación de presupuesto" xu) ∧
    (review_transition p "aprobado" "aprobación de presupuesto" xu).estado = "aprobado" ∧
    (review_transition p "aprobado" "aprobación de presupuesto" xu).historial =
      p.historial ++
        [{ estado_anterior := "enviado", estado_nuevo := "aprobado",
           motivo := some "aprobación de presupuesto",
           changed_by := (pyOrNone xu).getD "ui" }] ∧
    ((a.tipo_doc = "presupuesto_1" ∨ a.tipo_doc = "presupuesto_2") →
      ui_review_archivo a p "aprobado" notes xu =
        .ok (review_update_archivo a "aprobado" notes xu, p)) := by
  refine ⟨review_presupuesto_enviado a p "aprobado" notes xu (by decide) ht he, rfl,
    by simp [review_transition, he], ?_⟩
  intro htd
  have h1 : a.tipo_doc ≠ "formal_pdf" := by
    intro hf
    rw [hf] at htd
    rcases htd with h | h <;> exact absurd h (by decide)
  have h2 : a.tipo_doc ≠ "expediente_1" := by
    intro hf
    rw [hf] at htd
    rcases htd with h | h <;> exact absurd h (by decide)
  have h3 : a.tipo_doc ≠ "expediente_2" := by
    intro hf
    rw [hf] at htd
    rcases htd with h | h <;> exact absurd h (by decide)
  exact ui_review_sin_transicion a p "aprobado" notes xu rfl h1 h2 h3

/-- Witness for C3 at the spec scenario pedido. -/
theorem claim_C3_witness :
    (pyLower archivoPresupuesto.tipo_doc = "presupuesto_1" ∨
     pyLower archivoPresupuesto.tipo_doc = "presupuesto_2") ∧
    pedidoEnviado.estado = "enviado" ∧
    (review_archivo archivoPresupuesto pedidoEnviado "aprobado" none (some "revisor") =
      .ok (review_update_archivo archivoPresupuesto "aprobado" none (some "revisor"),
           review_transition pedidoEnviado "aprobado" "aprobación de presupuesto"
             (some "revisor")) ∧
     (review_transition pedidoEnviado "aprobado" "aprobación de presupuesto"
        (some "revisor")).estado = "aprobado" ∧
     (review_transition pedidoEnviado "aprobado" "aprobación de presupuesto"
        (some "revisor")).historial =
       pedidoEnviado.historial ++
         [{ estado_anterior := "enviado", estado_nuevo := "aprobado",
            motivo := some "aprobación de presupuesto", changed_by := "revisor" }] ∧
     ((archivoPresupuesto.tipo_doc = "presupuesto_1" ∨
       archivoPresupuesto.tipo_doc = "presupuesto_2") →
       ui_review_archivo archivoPresupuesto pedidoEnviado "aprobado" none (some "revisor") =
         .ok (review_update_archivo archivoPresupuesto "aprobado" none (some "revisor"),
              pedidoEnviado))) :=
  ⟨by decide, by decide,
   claim_C3_presupuesto_aprobado archivoPresupuesto pedidoEnviado none (some "revisor")
     (by decide) (by decide)⟩

/-- C3 counterexample: reviewing a `presupuesto_1` document with decision
`aprobado` through the ui.py review endpoint, for a pedido in `enviado`,
leaves the pedido in `enviado` with its historial unchanged — the claimed
transition to `aprobado` with a historial row does not happen on this
document-review operation of the core. -/
theorem claim_C3_counterexample :
    pedidoEnviado.estado = "enviado" ∧ archivoPresupuesto.tipo_doc = "presupuesto_1" ∧
    ui_review_archivo archivoPresupuesto pedidoEnviado "aprobado" none none =
      .ok (review_update_archivo archivoPresupuesto "aprobado" none none, pedidoEnviado) ∧
    (pedidoTrasReview pedidoEnviado
        (ui_review_archivo archivoPresupuesto pedidoEnviado "aprobado" none none)).estado =
      "enviado" ∧
    (pedidoTrasReview pedidoEnviado
        (ui_review_archivo archivoPresupuesto pedidoEnviado "aprobado" none none)).historial =
      pedidoEnviado.historial := by
  decide

/-- C4: the pedidos.py upload endpoint itself moves the estado, with no
review involved: `formal_pdf` moves {borrador, enviado, en_revision,
aprobado} to `en_proceso`; `expediente_1` moves any non-`cerrado` pedido to
`area_pago`; `expediente_2` moves any non-`cerrado` pedido to `cerrado`.
Each actual change appends one historial row with
`changed_by = "upload:<tipo_doc>"`; the metadata transaction commits first
and leaves the pedido untouched, and the transition transaction reads the
estado without a `FOR UPDATE` row lock. -/
theorem claim_C4_upload_mueve_estado (p : Pedido) :
    ((p.estado = "borrador" ∨ p.estado = "enviado" ∨ p.estado = "en_revision" ∨
      p.estado = "aprobado") →
      (upload_archivo_pedidos p "formal_pdf").final =
        { p with
          estado := "en_proceso"
          historial := p.historial ++
            [{ estado_anterior := p.estado, estado_nuevo := "en_proceso", motivo := none,
               changed_by := "upload:formal_pdf" }] }) ∧
    (¬ p.estado = "cerrado" →
      (upload_archivo_pedidos p "expediente_1").final.estado = "area_pago" ∧
      (¬ p.estado = "area_pago" →
        (upload_archivo_pedidos p "expediente_1").final.historial =
          p.historial ++
            [{ estado_anterior := p.estado, estado_nuevo := "area_pago", motivo := none,
               changed_by := "upload:expediente_1" }]) ∧
      (p.estado = "area_pago" →
        (upload_archivo_pedidos p "expediente_1").final.historial = p.historial)) ∧
    (¬ p.estado = "cerrado" →
      (upload_archivo_pedidos p "expediente_2").final =
        { p with
          estado := "cerrado"
          historial := p.historial ++
            [{ estado_anterior := p.estado, estado_nuevo := "cerrado", motivo := none,
               changed_by := "upload:expediente_2" }] }) ∧
    (∀ td, (upload_archivo_pedidos p td).after_metadata = p) ∧
    upload_estado_select_locks = false ∧ upload_transition_separate_tx = true := by
  refine ⟨?_, ?_, ?_, fun td => rfl, rfl, rfl⟩
  · intro h
    have hne : ¬ p.estado = "en_proceso" := by
      rcases h with h | h | h | h <;> rw [h] <;> decide
    show upload_transition p "formal_pdf" = _
    rw [upload_transition_formal p h, set_estado_cambia p "en_proceso" _ hne]
    rfl
  · intro h
    refine ⟨?_, ?_, ?_⟩
    · show (upload_transition p "expediente_1").estado = "area_pago"
      rw [upload_transition_exp1 p h]
      unfold set_estado
      split_ifs with hh
      · exact hh
      · rfl
    · intro hne
      show (upload_transition p "expediente_1").historial = _
      rw [upload_transition_exp1 p h, set_estado_cambia p "area_pago" _ hne]
      rfl
    · intro hap
      show (upload_transition p "expediente_1").historial = _
      rw [upload_transition_exp1 p h]
      unfold set_estado
      rw [if_pos hap]
  · intro h
    show upload_transition p "expediente_2" = _
    rw [upload_transition_exp2 p h, set_estado_cambia p "cerrado" _ h]
    rfl

/-- Witness for C4 at the spec scenario pedido (`enviado`). -/
theorem claim_C4_witness :
    (pedidoEnviado.estado = "borrador" ∨ pedidoEnviado.estado = "enviado" ∨
     pedidoEnviado.estado = "en_revision" ∨ pedidoEnviado.estado = "aprobado") ∧
    ¬ pedidoEnviado.estado = "cerrado" ∧ ¬ pedidoEnviado.estado = "area_pago" ∧
    ((upload_archivo_pedidos pedidoEnviado "formal_pdf").final =
      { pedidoEnviado with
        estado := "en_proceso"
        historial :=
          [{ estado_anterior := "enviado", estado_nuevo := "en_proceso", motivo := none,
             changed_by := "upload:formal_pdf" }] } ∧
     (upload_archivo_pedidos pedidoEnviado "expediente_1").final.estado = "area_pago" ∧
     (upload_archivo_pedidos pedidoEnviado "expediente_1").final.historial =
       [{ estado_anterior := "enviado", estado_nuevo := "area_pago", motivo := none,
          changed_by := "upload:expediente_1" }] ∧
     (upload_archivo_pedidos pedidoEnviado "expediente_2").final =
       { pedidoEnviado with
         estado := "cerrado"
         historial :=
           [{ estado_anterior := "enviado", estado_nuevo := "cerrado", motivo := none,
              changed_by := "upload:expediente_2" }] } ∧
     (upload_archivo_pedidos pedidoEnviado "presupuesto_1").after_metadata = pedidoEnviado ∧
     upload_estado_select_locks = false ∧ upload_transition_separate_tx = true) := by
  have h := claim_C4_upload_mueve_estado pedidoEnviado
  refine ⟨by decide, by decide, by decide,
    ?_, (h.2.1 (by decide)).1, ?_, ?_, (h.2.2.2.1 "presupuesto_1"), rfl, rfl⟩
  · have := h.1 (by decide)
    simpa using this
  · have := (h.2.1 (by decide)).2.1 (by decide)
    simpa using this
  · have := h.2.2.1 (by decide)
    simpa using this

/-- C5: the manual decision "aprobar" raises 409 Conflict exactly when the
current estado is one of {aprobado, cerrado, area_pago, en_proceso}, leaving
the pedido and its historial unchanged (the handler raises before any write
and the transaction rolls back); otherwise it sets the estado to `aprobado`
and appends exactly one historial row. -/
theorem claim_C5_decision_aprobar (p : Pedido) (notes cb : Option String)
    (hv : p.estado ∈ estadosValidos) :
    ((p.estado = "aprobado" ∨ p.estado = "cerrado" ∨ p.estado = "area_pago" ∨
      p.estado = "en_proceso") ↔
      decidir_pedido p "aprobar" notes cb =
        .error (.conflict "No se puede aprobar desde ese estado")) ∧
    (¬(p.estado = "aprobado" ∨ p.estado = "cerrado" ∨ p.estado = "area_pago" ∨
       p.estado = "en_proceso") →
      decidir_pedido p "aprobar" notes cb =
        .ok ({ p with
               estado := "aprobado"
               historial := p.historial ++
                 [{ estado_anterior := p.estado, estado_nuevo := "aprobado",
                    motivo := notes, changed_by := (pyOrNone cb).getD "ui" }] },
             "aprobado")) ∧
    ((p.estado = "aprobado" ∨ p.estado = "cerrado" ∨ p.estado = "area_pago" ∨
      p.estado = "en_proceso") →
      estadoTras p (decidir_pedido p "aprobar" notes cb) = p) := by
  have hl : pyLower p.estado = p.estado := pyLower_of_valid hv
  have hok : ¬(p.estado = "aprobado" ∨ p.estado = "cerrado" ∨ p.estado = "area_pago" ∨
      p.estado = "en_proceso") →
      decidir_pedido p "aprobar" notes cb =
        .ok ({ p with
               estado := "aprobado"
               historial := p.historial ++
                 [{ estado_anterior := p.estado, estado_nuevo := "aprobado",
                    motivo := notes, changed_by := (pyOrNone cb).getD "ui" }] },
             "aprobado") := by
    intro hnb
    have hnb2 : ¬(pyLower p.estado = "aprobado" ∨ pyLower p.estado = "cerrado" ∨
        pyLower p.estado = "area_pago" ∨ pyLower p.estado = "en_proceso") := by
      rw [hl]; exact hnb
    rw [decidir_aprobar_ok p "aprobar" notes cb (by decide) hnb2, hl]
    unfold aplicarDecision
    rw [if_neg (fun hh => hnb (Or.inl hh.symm))]
  refine ⟨⟨?_, ?_⟩, hok, ?_⟩
  · intro hb
    have hb2 : pyLower p.estado = "aprobado" ∨ pyLower p.estado = "cerrado" ∨
        pyLower p.estado = "area_pago" ∨ pyLower p.estado = "en_proceso" := by
      rw [hl]; exact hb
    exact decidir_aprobar_conflicto p "aprobar" notes cb (by decide) hb2
  · intro herr
    by_contra hnb
    rw [hok hnb] at herr
    exact Except.noConfusion herr
  · intro hb
    have hb2 : pyLower p.estado = "aprobado" ∨ pyLower p.estado = "cerrado" ∨
        pyLower p.estado = "area_pago" ∨ pyLower p.estado = "en_proceso" := by
      rw [hl]; exact hb
    rw [decidir_aprobar_conflicto p "aprobar" notes cb (by decide) hb2]
    rfl

/-- Witness for C5 at a pedido in `cerrado` (the conflict side is inhabited)
and, inside the instantiated conclusion, also the success branch shape. -/
theorem claim_C5_witness :
    pedidoCerrado.estado ∈ estadosValidos ∧
    (((pedidoCerrado.estado = "aprobado" ∨ pedidoCerrado.estado = "cerrado" ∨
       pedidoCerrado.estado = "area_pago" ∨ pedidoCerrado.estado = "en_proceso") ↔
       decidir_pedido pedidoCerrado "aprobar" none none =
         .error (.conflict "No se puede aprobar desde ese estado")) ∧
     (¬(pedidoCerrado.estado = "aprobado" ∨ pedidoCerrado.estado = "cerrado" ∨
        pedidoCerrado.estado = "area_pago" ∨ pedidoCerrado.estado = "en_proceso") →
       decidir_pedido pedidoCerrado "aprobar" none none =
         .ok ({ pedidoCerrado with
                estado := "aprobado"
                historial := pedidoCerrado.historial ++
                  [{ estado_anterior := pedidoCerrado.estado, estado_nuevo := "aprobado",
                     motivo := none, changed_by := (pyOrNone none).getD "ui" }] },
              "aprobado")) ∧
     ((pedidoCerrado.estado = "aprobado" ∨ pedidoCerrado.estado = "cerrado" ∨
       pedidoCerrado.estado = "area_pago" ∨ pedidoCerrado.estado = "en_proceso") →
       estadoTras pedidoCerrado (decidir_pedido pedidoCerrado "aprobar" none none) =
         pedidoCerrado)) :=
  ⟨by decide, claim_C5_decision_aprobar pedidoCerrado none none (by decide)⟩

/-- C6 (amended): approving a `presupuesto_1`/`presupuesto_2` document of a
pedido that is NOT in `enviado` does not raise any failure: the archivos.py
review endpoint returns success, writes the archivo review columns, and
silently leaves the pedido (estado and historial) unchanged.  No Conflict is
surfaced to the caller, and no "unchanged" flag is returned — the response is
the ordinary review row. -/
theorem claim_C6_presupuesto_silencioso (a : ArchivoRow) (p : Pedido)
    (notes xu : Option String)
    (ht : pyLower a.tipo_doc = "presupuesto_1" ∨ pyLower a.tipo_doc = "presupuesto_2")
    (he : ¬ p.estado = "enviado") :
    review_archivo a p "aprobado" notes xu =
      .ok (review_update_archivo a "aprobado" notes xu, p) ∧
    (∀ e : ApiError, review_archivo a p "aprobado" notes xu ≠ .error e) ∧
    pedidoTrasReview p (review_archivo a p "aprobado" notes xu) = p := by
  have h := review_presupuesto_no_enviado a p "aprobado" notes xu (by decide) ht he
  refine ⟨h, ?_, ?_⟩
  · intro e hcontra
    rw [h] at hcontra
    exact Except.noConfusion hcontra
  · rw [h]
    rfl

/-- Witness for C6 at a pedido in `borrador`. -/
theorem claim_C6_witness :
    (pyLower archivoPresupuesto.tipo_doc = "presupuesto_1" ∨
     pyLower archivoPresupuesto.tipo_doc = "presupuesto_2") ∧
    ¬ pedidoBorrador.estado = "enviado" ∧
    (review_archivo archivoPresupuesto pedidoBorrador "aprobado" none none =
       .ok (review_update_archivo archivoPresupuesto "aprobado" none none, pedidoBorrador) ∧
     (∀ e : ApiError,
        review_archivo archivoPresupuesto pedidoBorrador "aprobado" none none ≠ .error e) ∧
     pedidoTrasReview pedidoBorrador
        (review_archivo archivoPresupuesto pedidoBorrador "aprobado" none none) =
       pedidoBorrador) :=
  ⟨by decide, by decide,
   claim_C6_presupuesto_silencioso archivoPresupuesto pedidoBorrador none none
     (by decide) (by decide)⟩

/-- C6 counterexample: the claim requires a caller-visible Conflict failure,
but approving `presupuesto_1` of a pedido in `borrador` succeeds (returns
`.ok`, no error of any kind) while changing nothing on the pedido. -/
theorem claim_C6_counterexample :
    pedidoBorrador.estado = "borrador" ∧
    review_archivo archivoPresupuesto pedidoBorrador "aprobado" none (some "revisor") =
      .ok (review_update_archivo archivoPresupuesto "aprobado" none (some "revisor"),
           pedidoBorrador) ∧
    review_archivo archivoPresupuesto pedidoBorrador "aprobado" none (some "revisor") ≠
      .error (.conflict "No se puede aprobar desde ese estado") := by
  decide

/-! ### Idempotence: running the same request twice -/

/-- The archivo row after running a review handler (rollback on error). -/
def archivoTrasReview (a : ArchivoRow) : Except ApiError (ArchivoRow × Pedido) → ArchivoRow
  | .ok (a', _) => a'
  | .error _ => a

lemma decidir_noop_aprobado (q : Pedido) (dec : String) (notes cb : Option String)
    (h1 : pyStrip (pyLower dec) = "aprobar") (hq : pyLower q.estado = "aprobado") :
    estadoTras q (decidir_pedido q dec notes cb) = q := by
  rw [decidir_aprobar_conflicto q dec notes cb h1 (Or.inl hq)]
  rfl

lemma decidir_noop_observado (q : Pedido) (dec : String) (notes cb : Option String)
    (h2 : pyStrip (pyLower dec) = "observar") (hq : pyLower q.estado = "observado") :
    estadoTras q (decidir_pedido q dec notes cb) = q := by
  cases hn : notesBlank notes with
  | false =>
    rw [decidir_observar_ok q dec notes cb h2 hn]
    show aplicarDecision q (pyLower q.estado) "observado" notes cb = q
    rw [hq]
    unfold aplicarDecision
    rw [if_pos rfl]
  | true =>
    rw [decidir_observar_sin_notes q dec notes cb h2 hn]
    rfl

lemma decidir_noop_rechazado (q : Pedido) (dec : String) (notes cb : Option String)
    (h3 : pyStrip (pyLower dec) = "rechazar") (hq : pyLower q.estado = "rechazado") :
    estadoTras q (decidir_pedido q dec notes cb) = q := by
  cases hn : notesBlank notes with
  | false =>
    rw [decidir_rechazar_ok q dec notes cb h3 hn]
    show aplicarDecision q (pyLower q.estado) "rechazado" notes cb = q
    rw [hq]
    unfold aplicarDecision
    rw [if_pos rfl]
  | true =>
    rw [decidir_rechazar_sin_notes q dec notes cb h3 hn]
    rfl

/-- Submitting the same manual decision twice in a row: the second run leaves
the pedido (estado and historial) exactly as the first run left it. -/
lemma decidir_twice (p : Pedido) (dec : String) (notes cb : Option String)
    (hv : p.estado ∈ estadosValidos) :
    estadoTras (estadoTras p (decidir_pedido p dec notes cb))
      (decidir_pedido (estadoTras p (decidir_pedido p dec notes cb)) dec notes cb) =
    estadoTras p (decidir_pedido p dec notes cb) := by
  have hl : pyLower p.estado = p.estado := pyLower_of_valid hv
  by_cases h1 : pyStrip (pyLower dec) = "aprobar"
  · by_cases hb : pyLower p.estado = "aprobado" ∨ pyLower p.estado = "cerrado" ∨
        pyLower p.estado = "area_pago" ∨ pyLower p.estado = "en_proceso"
    · rw [decidir_aprobar_conflicto p dec notes cb h1 hb]
      show estadoTras p (decidir_pedido p dec notes cb) = p
      rw [decidir_aprobar_conflicto p dec notes cb h1 hb]
      rfl
    · rw [decidir_aprobar_ok p dec notes cb h1 hb]
      show estadoTras (aplicarDecision p (pyLower p.estado) "aprobado" notes cb)
        (decidir_pedido (aplicarDecision p (pyLower p.estado) "aprobado" notes cb)
          dec notes cb) = aplicarDecision p (pyLower p.estado) "aprobado" notes cb
      have hne : ¬("aprobado" = pyLower p.estado) := fun hh => hb (Or.inl hh.symm)
      unfold aplicarDecision
      rw [if_neg hne]
      exact decidir_noop_aprobado _ dec notes cb h1 rfl
  · by_cases h2 : pyStrip (pyLower dec) = "observar"
    · cases hn : notesBlank notes with
      | false =>
        rw [decidir_observar_ok p dec notes cb h2 hn]
        show estadoTras (aplicarDecision p (pyLower p.estado) "observado" notes cb)
          (decidir_pedido (aplicarDecision p (pyLower p.estado) "observado" notes cb)
            dec notes cb) = aplicarDecision p (pyLower p.estado) "observado" notes cb
        by_cases heq : "observado" = pyLower p.estado
        · unfold aplicarDecision
          rw [if_pos heq]
          exact decidir_noop_observado p dec notes cb h2 heq.symm
        · unfold aplicarDecision
          rw [if_neg heq]
          exact decidir_noop_observado _ dec notes cb h2 rfl
      | true =>
        rw [decidir_observar_sin_notes p dec notes cb h2 hn]
        show estadoTras p (decidir_pedido p dec notes cb) = p
        rw [decidir_observar_sin_notes p dec notes cb h2 hn]
        rfl
    · by_cases h3 : pyStrip (pyLower dec) = "rechazar"
      · cases hn : notesBlank notes with
        | false =>
          rw [decidir_rechazar_ok p dec notes cb h3 hn]
          show estadoTras (aplicarDecision p (pyLower p.estado) "rechazado" notes cb)
            (decidir_pedido (aplicarDecision p (pyLower p.estado) "rechazado" notes cb)
              dec notes cb) = aplicarDecision p (pyLower p.estado) "rechazado" notes cb
          by_cases heq : "rechazado" = pyLower p.estado
          · unfold aplicarDecision
            rw [if_pos heq]
            exact decidir_noop_rechazado p dec notes cb h3 heq.symm
          · unfold aplicarDecision
            rw [if_neg heq]
            exact decidir_noop_rechazado _ dec notes cb h3 rfl
        | true =>
          rw [decidir_rechazar_sin_notes p dec notes cb h3 hn]
          show estadoTras p (decidir_pedido p dec notes cb) = p
          rw [decidir_rechazar_sin_notes p dec notes cb h3 hn]
          rfl
      · rw [decidir_dec_invalida p dec notes cb h1 h2 h3]
        show estadoTras p (decidir_pedido p dec notes cb) = p
        rw [decidir_dec_invalida p dec notes cb h1 h2 h3]
        rfl

/-- Submitting the same direct estado request twice in a row: the second run
leaves the pedido exactly as the first run left it. -/
lemma ui_set_twice (p : Pedido) (est : String) (motivo xu xs : Option String) :
    estadoTras (estadoTras p (ui_pedidos_set_estado p est motivo xu xs))
      (ui_pedidos_set_estado (estadoTras p (ui_pedidos_set_estado p est motivo xu xs))
        est motivo xu xs) =
    estadoTras p (ui_pedidos_set_estado p est motivo xu xs) := by
  by_cases hreq : est = "aprobado" ∨ est = "en_revision"
  · cases hA : ui_allowed p xs with
    | error e =>
      rw [ui_set_auth_error p est motivo xu xs e hreq hA]
      show estadoTras p (ui_pedidos_set_estado p est motivo xu xs) = p
      rw [ui_set_auth_error p est motivo xu xs e hreq hA]
      rfl
    | ok b =>
      cases b with
      | false =>
        rw [ui_set_denegado p est motivo xu xs hreq hA]
        show estadoTras p (ui_pedidos_set_estado p est motivo xu xs) = p
        rw [ui_set_denegado p est motivo xu xs hreq hA]
        rfl
      | true =>
        by_cases heq : p.estado = est
        · rw [ui_set_sin_cambios p est motivo xu xs hreq hA heq]
          show estadoTras p (ui_pedidos_set_estado p est motivo xu xs) = p
          rw [ui_set_sin_cambios p est motivo xu xs hreq hA heq]
          rfl
        · rw [ui_set_actualiza p est motivo xu xs hreq hA heq]
          show estadoTras
              ({ p with
                 estado := est
                 historial := p.historial ++ [uiHistRow p est motivo xu] })
              (ui_pedidos_set_estado
                ({ p with
                   estado := est
                   historial := p.historial ++ [uiHistRow p est motivo xu] })
                est motivo xu xs) =
            ({ p with
               estado := est
               historial := p.historial ++ [uiHistRow p est motivo xu] } : Pedido)
          have hA2 : ui_allowed
              ({ p with
                 estado := est
                 historial := p.historial ++ [uiHistRow p est motivo xu] }) xs = .ok true :=
            (ui_allowed_congr _ p xs rfl rfl).trans hA
          rw [ui_set_sin_cambios _ est motivo xu xs hreq hA2 rfl]
          rfl
  · rw [ui_set_estado_invalido p est motivo xu xs hreq]
    show estadoTras p (ui_pedidos_set_estado p est motivo xu xs) = p
    rw [ui_set_estado_invalido p est motivo xu xs hreq]
    rfl

/-- Submitting the same document review twice in a row on the archivos.py
endpoint: the second run leaves the pedido exactly as the first run left
it (the archivo review columns are rewritten, but the pedido and its
historial are not touched again). -/
lemma review_archivo_twice (a : ArchivoRow) (p : Pedido) (dec : String)
    (notes xu : Option String) :
    pedidoTrasReview (pedidoTrasReview p (review_archivo a p dec notes xu))
      (review_archivo (archivoTrasReview a (review_archivo a p dec notes xu))
        (pedidoTrasReview p (review_archivo a p dec notes xu)) dec notes xu) =
    pedidoTrasReview p (review_archivo a p dec notes xu) := by
  by_cases hd : pyLower (pyStrip dec) = "aprobado"
  · by_cases ht : pyLower a.tipo_doc = "presupuesto_1" ∨ pyLower a.tipo_doc = "presupuesto_2"
    · have ht2 : pyLower (review_update_archivo a "aprobado" notes xu).tipo_doc =
          "presupuesto_1" ∨
          pyLower (review_update_archivo a "aprobado" notes xu).tipo_doc = "presupuesto_2" := ht
      by_cases he : p.estado = "enviado"
      · rw [review_presupuesto_enviado a p dec notes xu hd ht he]
        have he2 : ¬ (review_transition p "aprobado" "aprobación de presupuesto" xu).estado =
            "enviado" :=
          fun hh => (by decide : ¬ ("aprobado" : String) = "enviado") hh
        show pedidoTrasReview (review_transition p "aprobado" "aprobación de presupuesto" xu)
            (review_archivo (review_update_archivo a "aprobado" notes xu)
              (review_transition p "aprobado" "aprobación de presupuesto" xu) dec notes xu) =
          review_transition p "aprobado" "aprobación de presupuesto" xu
        rw [review_presupuesto_no_enviado _ _ dec notes xu hd ht2 he2]
        rfl
      · rw [review_presupuesto_no_enviado a p dec notes xu hd ht he]
        show pedidoTrasReview p
            (review_archivo (review_update_archivo a "aprobado" notes xu) p dec notes xu) = p
        rw [review_presupuesto_no_enviado _ p dec notes xu hd ht2 he]
        rfl
    · rw [not_or] at ht
      by_cases h3 : pyLower a.tipo_doc = "formal_pdf"
      · have h32 : pyLower (review_update_archivo a "aprobado" notes xu).tipo_doc =
            "formal_pdf" := h3
        by_cases he : p.estado = "en_proceso"
        · rw [review_formal_queda a p dec notes xu hd h3 he]
          show pedidoTrasReview p
              (review_archivo (review_update_archivo a "aprobado" notes xu) p dec notes xu) = p
          rw [review_formal_queda _ p dec notes xu hd h32 he]
          rfl
        · rw [review_formal_mueve a p dec notes xu hd h3 he]
          have he2 : (review_transition p "en_proceso" "aprobación de formal_pdf" xu).estado =
              "en_proceso" := rfl
          show pedidoTrasReview (review_transition p "en_proceso" "aprobación de formal_pdf" xu)
              (review_archivo (review_update_archivo a "aprobado" notes xu)
                (review_transition p "en_proceso" "aprobación de formal_pdf" xu) dec notes xu) =
            review_transition p "en_proceso" "aprobación de formal_pdf" xu
          rw [review_formal_queda _ _ dec notes xu hd h32 he2]
          rfl
      · by_cases h4 : pyLower a.tipo_doc = "expediente_1"
        · have h42 : pyLower (review_update_archivo a "aprobado" notes xu).tipo_doc =
              "expediente_1" := h4
          by_cases he : p.estado = "area_pago"
          · rw [review_exp1_queda a p dec notes xu hd h4 he]
            show pedidoTrasReview p
                (review_archivo (review_update_archivo a "aprobado" notes xu) p dec notes xu) = p
            rw [review_exp1_queda _ p dec notes xu hd h42 he]
            rfl
          · rw [review_exp1_mueve a p dec notes xu hd h4 he]
            have he2 : (review_transition p "area_pago" "aprobación de expediente_1" xu).estado =
                "area_pago" := rfl
            show pedidoTrasReview
                (review_transition p "area_pago" "aprobación de expediente_1" xu)
                (review_archivo (review_update_archivo a "aprobado" notes xu)
                  (review_transition p "area_pago" "aprobación de expediente_1" xu)
                  dec notes xu) =
              review_transition p "area_pago" "aprobación de expediente_1" xu
            rw [review_exp1_queda _ _ dec notes xu hd h42 he2]
            rfl
        · by_cases h5 : pyLower a.tipo_doc = "expediente_2"
          · have h52 : pyLower (review_update_archivo a "aprobado" notes xu).tipo_doc =
                "expediente_2" := h5
            by_cases he : p.estado = "cerrado"
            · rw [review_exp2_queda a p dec notes xu hd h5 he]
              show pedidoTrasReview p
                  (review_archivo (review_update_archivo a "aprobado" notes xu) p dec notes xu) = p
              rw [review_exp2_queda _ p dec notes xu hd h52 he]
              rfl
            · rw [review_exp2_mueve a p dec notes xu hd h5 he]
              have he2 : (review_transition p "cerrado" "aprobación de expediente_2" xu).estado =
                  "cerrado" := rfl
              show pedidoTrasReview
                  (review_transition p "cerrado" "aprobación de expediente_2" xu)
                  (review_archivo (review_update_archivo a "aprobado" notes xu)
                    (review_transition p "cerrado" "aprobación de expediente_2" xu)
                    dec notes xu) =
                review_transition p "cerrado" "aprobación de expediente_2" xu
              rw [review_exp2_queda _ _ dec notes xu hd h52 he2]
              rfl
          · have ht12 : ¬ pyLower (review_update_archivo a "aprobado" notes xu).tipo_doc =
                "presupuesto_1" := ht.1
            have ht22 : ¬ pyLower (review_update_archivo a "aprobado" notes xu).tipo_doc =
                "presupuesto_2" := ht.2
            have h32 : ¬ pyLower (review_update_archivo a "aprobado" notes xu).tipo_doc =
                "formal_pdf" := h3
            have h42 : ¬ pyLower (review_update_archivo a "aprobado" notes xu).tipo_doc =
                "expediente_1" := h4
            have h52 : ¬ pyLower (review_update_archivo a "aprobado" notes xu).tipo_doc =
                "expediente_2" := h5
            rw [review_otro_tipo a p dec notes xu hd ht.1 ht.2 h3 h4 h5]
            show pedidoTrasReview p
                (review_archivo (review_update_archivo a "aprobado" notes xu) p dec notes xu) = p
            rw [review_otro_tipo _ p dec notes xu hd ht12 ht22 h32 h42 h52]
            rfl
  · by_cases ho : pyLower (pyStrip dec) = "observado"
    · rw [review_observado a p dec notes xu ho]
      show pedidoTrasReview p
          (review_archivo (review_update_archivo a "observado" notes xu) p dec notes xu) = p
      rw [review_observado (review_update_archivo a "observado" notes xu) p dec notes xu ho]
      rfl
    · rw [review_decision_invalida a p dec notes xu hd ho]
      show pedidoTrasReview p (review_archivo a p dec notes xu) = p
      rw [review_decision_invalida a p dec notes xu hd ho]
      rfl

/-- Submitting the same document review twice in a row on the ui.py
endpoint: the second run leaves the pedido exactly as the first run left it. -/
lemma ui_review_twice (a : ArchivoRow) (p : Pedido) (dec : String)
    (notes xu : Option String) :
    pedidoTrasReview (pedidoTrasReview p (ui_review_archivo a p dec notes xu))
      (ui_review_archivo (archivoTrasReview a (ui_review_archivo a p dec notes xu))
        (pedidoTrasReview p (ui_review_archivo a p dec notes xu)) dec notes xu) =
    pedidoTrasReview p (ui_review_archivo a p dec notes xu) := by
  by_cases hd : dec = "aprobado"
  · by_cases h1 : a.tipo_doc = "formal_pdf"
    · have h12 : (review_update_archivo a "aprobado" notes xu).tipo_doc = "formal_pdf" := h1
      by_cases he : p.estado = "en_proceso"
      · rw [ui_review_formal_queda a p dec notes xu hd h1 he]
        show pedidoTrasReview p
            (ui_review_archivo (review_update_archivo a "aprobado" notes xu) p dec notes xu) = p
        rw [ui_review_formal_queda _ p dec notes xu hd h12 he]
        rfl
      · rw [ui_review_formal_mueve a p dec notes xu hd h1 he]
        have he2 : (review_transition p "en_proceso" "aprobación de formal_pdf" xu).estado =
            "en_proceso" := rfl
        show pedidoTrasReview (review_transition p "en_proceso" "aprobación de formal_pdf" xu)
            (ui_review_archivo (review_update_archivo a "aprobado" notes xu)
              (review_transition p "en_proceso" "aprobación de formal_pdf" xu) dec notes xu) =
          review_transition p "en_proceso" "aprobación de formal_pdf" xu
        rw [ui_review_formal_queda _ _ dec notes xu hd h12 he2]
        rfl
    · by_cases h2 : a.tipo_doc = "expediente_1"
      · have h22 : (review_update_archivo a "aprobado" notes xu).tipo_doc = "expediente_1" := h2
        by_cases he : p.estado = "area_pago"
        · rw [ui_review_exp1_queda a p dec notes xu hd h2 he]
          show pedidoTrasReview p
              (ui_review_archivo (review_update_archivo a "aprobado" notes xu) p dec notes xu) = p
          rw [ui_review_exp1_queda _ p dec notes xu hd h22 he]
          rfl
        · rw [ui_review_exp1_mueve a p dec notes xu hd h2 he]
          have he2 : (review_transition p "area_pago" "aprobación de expediente_1" xu).estado =
              "area_pago" := rfl
          show pedidoTrasReview (review_transition p "area_pago" "aprobación de expediente_1" xu)
              (ui_review_archivo (review_update_archivo a "aprobado" notes xu)
                (review_transition p "area_pago" "aprobación de expediente_1" xu) dec notes xu) =
            review_transition p "area_pago" "aprobación de expediente_1" xu
          rw [ui_review_exp1_queda _ _ dec notes xu hd h22 he2]
          rfl
      · by_cases h3 : a.tipo_doc = "expediente_2"
        · have h32 : (review_update_archivo a "aprobado" notes xu).tipo_doc = "expediente_2" := h3
          by_cases he : p.estado = "cerrado"
          · rw [ui_review_exp2_queda a p dec notes xu hd h3 he]
            show pedidoTrasReview p
                (ui_review_archivo (review_update_archivo a "aprobado" notes xu) p dec notes xu) = p
            rw [ui_review_exp2_queda _ p dec notes xu hd h32 he]
            rfl
          · rw [ui_review_exp2_mueve a p dec notes xu hd h3 he]
            have he2 : (review_transition p "cerrado" "aprobación de expediente_2" xu).estado =
                "cerrado" := rfl
            show pedidoTrasReview (review_transition p "cerrado" "aprobación de expediente_2" xu)
                (ui_review_archivo (review_update_archivo a "aprobado" notes xu)
                  (review_transition p "cerrado" "aprobación de expediente_2" xu) dec notes xu) =
              review_transition p "cerrado" "aprobación de expediente_2" xu
            rw [ui_review_exp2_queda _ _ dec notes xu hd h32 he2]
            rfl
        · have h12 : ¬ (review_update_archivo a "aprobado" notes xu).tipo_doc = "formal_pdf" := h1
          have h22 : ¬ (review_update_archivo a "aprobado" notes xu).tipo_doc =
              "expediente_1" := h2
          have h32 : ¬ (review_update_archivo a "aprobado" notes xu).tipo_doc =
              "expediente_2" := h3
          rw [ui_review_sin_transicion a p dec notes xu hd h1 h2 h3]
          show pedidoTrasReview p
              (ui_review_archivo (review_update_archivo a "aprobado" notes xu) p dec notes xu) = p
          rw [ui_review_sin_transicion _ p dec notes xu hd h12 h22 h32]
          rfl
  · by_cases ho : dec = "observado"
    · rw [ui_review_observado a p dec notes xu ho]
      show pedidoTrasReview p
          (ui_review_archivo (review_update_archivo a "observado" notes xu) p dec notes xu) = p
      rw [ui_review_observado (review_update_archivo a "observado" notes xu) p dec notes xu ho]
      rfl
    · rw [ui_review_decision_invalida a p dec notes xu hd ho]
      show pedidoTrasReview p (ui_review_archivo a p dec notes xu) = p
      rw [ui_review_decision_invalida a p dec notes xu hd ho]
      rfl

/-- C7: idempotence.  Submitting the same manual decision, direct estado
request or document review twice in a row leaves the pedido's estado and
historial unchanged the second time (no second historial row); and whenever
the requested new state equals the current state the operation does not
touch the pedido or its historial (for decisions/reviews this is a silent
skip; for "aprobar" on an already-`aprobado` pedido it is a 409 whose
transaction rolls back, equally leaving pedido and historial unchanged). -/
theorem claim_C7_idempotencia (p : Pedido) (a : ArchivoRow) (dec est : String)
    (notes cb motivo xu xs : Option String) (hv : p.estado ∈ estadosValidos) :
    (estadoTras (estadoTras p (decidir_pedido p dec notes cb))
       (decidir_pedido (estadoTras p (decidir_pedido p dec notes cb)) dec notes cb) =
     estadoTras p (decidir_pedido p dec notes cb)) ∧
    (estadoTras (estadoTras p (ui_pedidos_set_estado p est motivo xu xs))
       (ui_pedidos_set_estado (estadoTras p (ui_pedidos_set_estado p est motivo xu xs))
         est motivo xu xs) =
     estadoTras p (ui_pedidos_set_estado p est motivo xu xs)) ∧
    (pedidoTrasReview (pedidoTrasReview p (review_archivo a p dec notes xu))
       (review_archivo (archivoTrasReview a (review_archivo a p dec notes xu))
         (pedidoTrasReview p (review_archivo a p dec notes xu)) dec notes xu) =
     pedidoTrasReview p (review_archivo a p dec notes xu)) ∧
    (pedidoTrasReview (pedidoTrasReview p (ui_review_archivo a p dec notes xu))
       (ui_review_archivo (archivoTrasReview a (ui_review_archivo a p dec notes xu))
         (pedidoTrasReview p (ui_review_archivo a p dec notes xu)) dec notes xu) =
     pedidoTrasReview p (ui_review_archivo a p dec notes xu)) ∧
    (p.estado = "observado" → notesBlank notes = false →
       decidir_pedido p "observar" notes cb = .ok (p, "observado")) ∧
    (p.estado = "rechazado" → notesBlank notes = false →
       decidir_pedido p "rechazar" notes cb = .ok (p, "rechazado")) ∧
    (p.estado = "aprobado" →
       estadoTras p (decidir_pedido p "aprobar" notes cb) = p) ∧
    (p.estado = est → estadoTras p (ui_pedidos_set_estado p est motivo xu xs) = p) ∧
    (pyLower a.tipo_doc = "formal_pdf" → p.estado = "en_proceso" →
       review_archivo a p "aprobado" notes xu =
         .ok (review_update_archivo a "aprobado" notes xu, p)) ∧
    (pyLower a.tipo_doc = "expediente_2" → p.estado = "cerrado" →
       review_archivo a p "aprobado" notes xu =
         .ok (review_update_archivo a "aprobado" notes xu, p)) := by
  have hl : pyLower p.estado = p.estado := pyLower_of_valid hv
  refine ⟨decidir_twice p dec notes cb hv, ui_set_twice p est motivo xu xs,
    review_archivo_twice a p dec notes xu, ui_review_twice a p dec notes xu,
    ?_, ?_, ?_, ?_, ?_, ?_⟩
  · intro heq hn
    rw [decidir_observar_ok p "observar" notes cb (by decide) hn]
    show Except.ok (aplicarDecision p (pyLower p.estado) "observado" notes cb, "observado") = _
    rw [hl, heq]
    unfold aplicarDecision
    rw [if_pos rfl]
  · intro heq hn
    rw [decidir_rechazar_ok p "rechazar" notes cb (by decide) hn]
    show Except.ok (aplicarDecision p (pyLower p.estado) "rechazado" notes cb, "rechazado") = _
    rw [hl, heq]
    unfold aplicarDecision
    rw [if_pos rfl]
  · intro heq
    exact decidir_noop_aprobado p "aprobar" notes cb (by decide) (hl.trans heq)
  · intro heq
    by_cases hreq : est = "aprobado" ∨ est = "en_revision"
    · cases hA : ui_allowed p xs with
      | error e => rw [ui_set_auth_error p est motivo xu xs e hreq hA]; rfl
      | ok b =>
        cases b with
        | false => rw [ui_set_denegado p est motivo xu xs hreq hA]; rfl
        | true => rw [ui_set_sin_cambios p est motivo xu xs hreq hA heq]; rfl
    · rw [ui_set_estado_invalido p est motivo xu xs hreq]; rfl
  · intro ht he
    exact review_formal_queda a p "aprobado" notes xu (by decide) ht he
  · intro ht he
    exact review_exp2_queda a p "aprobado" notes xu (by decide) ht he

/-- Witness for C7: a pedido in `observado`, the decision "observar" with
non-blank notes. -/
theorem claim_C7_witness :
    pedidoObservado.estado ∈ estadosValidos ∧
    ((estadoTras (estadoTras pedidoObservado
         (decidir_pedido pedidoObservado "observar" (some "seguimiento") none))
       (decidir_pedido
         (estadoTras pedidoObservado
           (decidir_pedido pedidoObservado "observar" (some "seguimiento") none))
         "observar" (some "seguimiento") none) =
      estadoTras pedidoObservado
        (decidir_pedido pedidoObservado "observar" (some "seguimiento") none)) ∧
     (estadoTras (estadoTras pedidoObservado
         (ui_pedidos_set_estado pedidoObservado "aprobado" none none
           (some "Secretaría de Economía")))
       (ui_pedidos_set_estado
         (estadoTras pedidoObservado
           (ui_pedidos_set_estado pedidoObservado "aprobado" none none
             (some "Secretaría de Economía")))
         "aprobado" none none (some "Secretaría de Economía")) =
      estadoTras pedidoObservado
        (ui_pedidos_set_estado pedidoObservado "aprobado" none none
          (some "Secretaría de Economía"))) ∧
     (pedidoTrasReview
        (pedidoTrasReview pedidoObservado
          (review_archivo archivoFormal pedidoObservado "observar" (some "seguimiento") none))
        (review_archivo
          (archivoTrasReview archivoFormal
            (review_archivo archivoFormal pedidoObservado "observar" (some "seguimiento") none))
          (pedidoTrasReview pedidoObservado
            (review_archivo archivoFormal pedidoObservado "observar" (some "seguimiento") none))
          "observar" (some "seguimiento") none) =
      pedidoTrasReview pedidoObservado
        (review_archivo archivoFormal pedidoObservado "observar" (some "seguimiento") none)) ∧
     (pedidoTrasReview
        (pedidoTrasReview pedidoObservado
          (ui_review_archivo archivoFormal pedidoObservado "observar" (some "seguimiento") none))
        (ui_review_archivo
          (archivoTrasReview archivoFormal
            (ui_review_archivo archivoFormal pedidoObservado "observar" (some "seguimiento") none))
          (pedidoTrasReview pedidoObservado
            (ui_review_archivo archivoFormal pedidoObservado "observar" (some "seguimiento") none))
          "observar" (some "seguimiento") none) =
      pedidoTrasReview pedidoObservado
        (ui_review_archivo archivoFormal pedidoObservado "observar" (some "seguimiento") none)) ∧
     (pedidoObservado.estado = "observado" → notesBlank (some "seguimiento") = false →
        decidir_pedido pedidoObservado "observar" (some "seguimiento") none =
          .ok (pedidoObservado, "observado")) ∧
     (pedidoObservado.estado = "rechazado" → notesBlank (some "seguimiento") = false →
        decidir_pedido pedidoObservado "rechazar" (some "seguimiento") none =
          .ok (pedidoObservado, "rechazado")) ∧
     (pedidoObservado.estado = "aprobado" →
        estadoTras pedidoObservado
          (decidir_pedido pedidoObservado "aprobar" (some "seguimiento") none) =
        pedidoObservado) ∧
     (pedidoObservado.estado = "aprobado" →
        estadoTras pedidoObservado
          (ui_pedidos_set_estado pedidoObservado "aprobado" none none
            (some "Secretaría de Economía")) =
        pedidoObservado) ∧
     (pyLower archivoFormal.tipo_doc = "formal_pdf" → pedidoObservado.estado = "en_proceso" →
        review_archivo archivoFormal pedidoObservado "aprobado" (some "seguimiento") none =
          .ok (review_update_archivo archivoFormal "aprobado" (some "seguimiento") none,
               pedidoObservado)) ∧
     (pyLower archivoFormal.tipo_doc = "expediente_2" → pedidoObservado.estado = "cerrado" →
        review_archivo archivoFormal pedidoObservado "aprobado" (some "seguimiento") none =
          .ok (review_update_archivo archivoFormal "aprobado" (some "seguimiento") none,
               pedidoObservado))) :=
  ⟨by decide,
   claim_C7_idempotencia pedidoObservado archivoFormal "observar" "aprobado"
     (some "seguimiento") none none none (some "Secretaría de Economía") (by decide)⟩

/-! ### C8: the permission gate -/

/-- The allow-condition of the spec, §4.1 role gate: economia_admin always;
area_compras only above the $10M threshold; secretaria_compras only at or
below it; otherwise the caller must have actually declared a secretariat
(a missing or empty-string `X-Secretaria` header is falsy and always fails,
ui.py line 343) matching the pedido's owning secretariat after trimming and
case folding. -/
def gatePermitido (p : Pedido) (x_secretaria : Option String) : Prop :=
  let monto : ℚ := p.presupuesto_estimado.getD 0
  let rol := infer_role x_secretaria
  rol = "economia_admin" ∨
  (rol = "area_compras" ∧ monto > UMBRAL) ∨
  (rol = "secretaria_compras" ∧ monto ≤ UMBRAL) ∨
  (rol = "secretaria" ∧
    ∃ s, pyOrNone x_secretaria = some s ∧
      pyUpper (pyStrip s) = pyUpper (pyStrip p.secretaria_nombre))

/-- `infer_role` returns one of exactly four role strings. -/
lemma infer_role_cases (xs : Option String) :
    infer_role xs = "economia_admin" ∨ infer_role xs = "area_compras" ∨
    infer_role xs = "secretaria_compras" ∨ infer_role xs = "secretaria" := by
  simp only [infer_role]
  split_ifs <;> simp

/-- `ui_allowed` grants access exactly on `gatePermitido`. -/
lemma ui_allowed_iff (p : Pedido) (xs : Option String) :
    (ui_allowed p xs = .ok true ↔ gatePermitido p xs) ∧
    (¬ gatePermitido p xs →
      ui_allowed p xs = .ok false ∨
      ∃ d, ui_allowed p xs = .error (.forbidden d)) := by
  by_cases h1 : infer_role xs = "economia_admin"
  · have hA : ui_allowed p xs = .ok true := by
      simp only [ui_allowed]
      rw [if_pos h1]
    constructor
    · rw [hA]
      simp only [true_iff]
      exact Or.inl h1
    · intro hn
      exact absurd (Or.inl h1) hn
  · by_cases h2 : infer_role xs = "area_compras"
    · have hA : ui_allowed p xs = .ok (decide (p.presupuesto_estimado.getD 0 > UMBRAL)) := by
        simp only [ui_allowed]
        rw [if_neg h1, if_pos h2]
      by_cases hm : p.presupuesto_estimado.getD 0 > UMBRAL
      · constructor
        · rw [hA, decide_eq_true hm]
          simp only [true_iff]
          exact Or.inr (Or.inl ⟨h2, hm⟩)
        · intro hn
          exact absurd (Or.inr (Or.inl ⟨h2, hm⟩)) hn
      · constructor
        · rw [hA, decide_eq_false hm]
          simp only [false_iff, Except.ok.injEq, Bool.false_eq_true]
          rintro (h | ⟨hr, hm2⟩ | ⟨hr, -⟩ | ⟨hr, -⟩)
          · exact h1 h
          · exact hm hm2
          · rw [h2] at hr; exact absurd hr (by decide)
          · rw [h2] at hr; exact absurd hr (by decide)
        · intro hn
          left
          rw [hA, decide_eq_false hm]
    · by_cases h3 : infer_role xs = "secretaria_compras"
      · have hA : ui_allowed p xs = .ok (decide (p.presupuesto_estimado.getD 0 ≤ UMBRAL)) := by
          simp only [ui_allowed]
          rw [if_neg h1, if_neg h2, if_pos h3]
        by_cases hm : p.presupuesto_estimado.getD 0 ≤ UMBRAL
        · constructor
          · rw [hA, decide_eq_true hm]
            simp only [true_iff]
            exact Or.inr (Or.inr (Or.inl ⟨h3, hm⟩))
          · intro hn
            exact absurd (Or.inr (Or.inr (Or.inl ⟨h3, hm⟩))) hn
        · constructor
          · rw [hA, decide_eq_false hm]
            simp only [false_iff, Except.ok.injEq, Bool.false_eq_true]
            rintro (h | ⟨hr, -⟩ | ⟨hr, hm2⟩ | ⟨hr, -⟩)
            · exact h1 h
            · rw [h3] at hr; exact absurd hr (by decide)
            · exact hm hm2
            · rw [h3] at hr; exact absurd hr (by decide)
          · intro hn
            left
            rw [hA, decide_eq_false hm]
      · have h4 : infer_role xs = "secretaria" := by
          rcases infer_role_cases xs with h | h | h | h
          · exact absurd h h1
          · exact absurd h h2
          · exact absurd h h3
          · exact h
        cases hxs : pyOrNone xs with
        | none =>
          have hA : ui_allowed p xs =
              .error (.forbidden "Falta X-Secretaria para validar permisos") := by
            simp only [ui_allowed]
            rw [if_neg h1, if_neg h2, if_neg h3, hxs]
          constructor
          · rw [hA]
            simp only [reduceCtorEq, false_iff]
            rintro (h | ⟨hr, -⟩ | ⟨hr, -⟩ | ⟨-, s, hs, -⟩)
            · exact h1 h
            · exact h2 hr
            · exact h3 hr
            · rw [hxs] at hs
              exact Option.noConfusion hs
          · intro hn
            exact Or.inr ⟨"Falta X-Secretaria para validar permisos", hA⟩
        | some s =>
          have hA : ui_allowed p xs =
              .ok (pyUpper (pyStrip s) == pyUpper (pyStrip p.secretaria_nombre)) := by
            simp only [ui_allowed]
            rw [if_neg h1, if_neg h2, if_neg h3, hxs]
          by_cases hm : pyUpper (pyStrip s) = pyUpper (pyStrip p.secretaria_nombre)
          · constructor
            · rw [hA]
              simp only [Except.ok.injEq, beq_iff_eq, hm, true_iff]
              exact Or.inr (Or.inr (Or.inr ⟨h4, s, hxs, hm⟩))
            · intro hn
              exact absurd (Or.inr (Or.inr (Or.inr ⟨h4, s, hxs, hm⟩))) hn
          · constructor
            · rw [hA]
              simp only [Except.ok.injEq, beq_iff_eq]
              constructor
              · intro h
                exact absurd h hm
              · intro hg
                exfalso
                simp only [gatePermitido] at hg
                rcases hg with h | ⟨hr, -⟩ | ⟨hr, -⟩ | ⟨-, t, hs, hmt⟩
                · exact h1 h
                · exact h2 hr
                · exact h3 hr
                · rw [hxs] at hs
                  injection hs with hst
                  subst hst
                  exact hm hmt
            · intro hn
              left
              rw [hA]
              simp only [Except.ok.injEq]
              cases hbe : pyUpper (pyStrip s) == pyUpper (pyStrip p.secretaria_nombre) with
              | false => rfl
              | true => exact absurd (beq_iff_eq.mp hbe) hm

/-- C8: for every direct pedido-state request with a valid body, the gate
allows the change exactly under `gatePermitido` (economia_admin; or
area_compras with monto strictly above $10M; or secretaria_compras at or
below $10M; or otherwise a declared secretariat matching the owning
secretariat after trim + case fold).  Every caller failing the condition is
rejected with a 403 authorization failure and the pedido is unchanged. -/
theorem claim_C8_gate_permisos (p : Pedido) (est : String) (motivo xu xs : Option String)
    (hreq : est = "aprobado" ∨ est = "en_revision") :
    (gatePermitido p xs → ∃ r, ui_pedidos_set_estado p est motivo xu xs = .ok r) ∧
    (¬ gatePermitido p xs →
       (∃ d, ui_pedidos_set_estado p est motivo xu xs = .error (.forbidden d)) ∧
       estadoTras p (ui_pedidos_set_estado p est motivo xu xs) = p) := by
  constructor
  · intro hg
    have hA : ui_allowed p xs = .ok true := (ui_allowed_iff p xs).1.mpr hg
    by_cases heq : p.estado = est
    · exact ⟨_, ui_set_sin_cambios p est motivo xu xs hreq hA heq⟩
    · exact ⟨_, ui_set_actualiza p est motivo xu xs hreq hA heq⟩
  · intro hn
    rcases (ui_allowed_iff p xs).2 hn with hA | ⟨d, hA⟩
    · refine ⟨⟨"Sin permisos para cambiar el estado de este pedido",
        ui_set_denegado p est motivo xu xs hreq hA⟩, ?_⟩
      rw [ui_set_denegado p est motivo xu xs hreq hA]
      rfl
    · refine ⟨⟨d, ui_set_auth_error p est motivo xu xs (.forbidden d) hreq hA⟩, ?_⟩
      rw [ui_set_auth_error p est motivo xu xs (.forbidden d) hreq hA]
      rfl

/-- Witness for C8 at the scenario pedido, requesting `aprobado` with a
caller declaring a non-matching secretariat. -/
theorem claim_C8_witness :
    ("aprobado" = "aprobado" ∨ "aprobado" = "en_revision") ∧
    ((gatePermitido pedidoEnviado (some "SECRETARÍA DE HACIENDA") →
       ∃ r, ui_pedidos_set_estado pedidoEnviado "aprobado" none none
         (some "SECRETARÍA DE HACIENDA") = .ok r) ∧
     (¬ gatePermitido pedidoEnviado (some "SECRETARÍA DE HACIENDA") →
       (∃ d, ui_pedidos_set_estado pedidoEnviado "aprobado" none none
          (some "SECRETARÍA DE HACIENDA") = .error (.forbidden d)) ∧
       estadoTras pedidoEnviado
          (ui_pedidos_set_estado pedidoEnviado "aprobado" none none
            (some "SECRETARÍA DE HACIENDA")) = pedidoEnviado)) :=
  ⟨by decide,
   claim_C8_gate_permisos pedidoEnviado "aprobado" none none
     (some "SECRETARÍA DE HACIENDA") (by decide)⟩

/-- C9 (amended): "observar"/"rechazar" with missing or blank notes fail 422
and leave the pedido and historial untouched; with non-blank notes they set
the estado to observado/rechazado appending exactly one historial row —
EXCEPT when the pedido is already in the target estado, in which case the
operation succeeds as an idempotent no-op and appends no row. -/
theorem claim_C9_notas_requeridas (p : Pedido) (notes cb : Option String)
    (hv : p.estado ∈ estadosValidos) :
    (notesBlank notes = true →
       decidir_pedido p "observar" notes cb =
         .error (.validation "notes es requerido para observar") ∧
       decidir_pedido p "rechazar" notes cb =
         .error (.validation "notes es requerido para rechazar") ∧
       estadoTras p (decidir_pedido p "observar" notes cb) = p ∧
       estadoTras p (decidir_pedido p "rechazar" notes cb) = p) ∧
    (notesBlank notes = false →
       (¬ p.estado = "observado" →
          decidir_pedido p "observar" notes cb =
            .ok ({ p with
                   estado := "observado"
                   historial := p.historial ++
                     [{ estado_anterior := p.estado, estado_nuevo := "observado",
                        motivo := notes, changed_by := (pyOrNone cb).getD "ui" }] },
                 "observado")) ∧
       (p.estado = "observado" →
          decidir_pedido p "observar" notes cb = .ok (p, "observado")) ∧
       (¬ p.estado = "rechazado" →
          decidir_pedido p "rechazar" notes cb =
            .ok ({ p with
                   estado := "rechazado"
                   historial := p.historial ++
                     [{ estado_anterior := p.estado, estado_nuevo := "rechazado",
                        motivo := notes, changed_by := (pyOrNone cb).getD "ui" }] },
                 "rechazado")) ∧
       (p.estado = "rechazado" →
          decidir_pedido p "rechazar" notes cb = .ok (p, "rechazado"))) := by
  have hl : pyLower p.estado = p.estado := pyLower_of_valid hv
  constructor
  · intro hn
    refine ⟨decidir_observar_sin_notes p "observar" notes cb (by decide) hn,
      decidir_rechazar_sin_notes p "rechazar" notes cb (by decide) hn, ?_, ?_⟩
    · rw [decidir_observar_sin_notes p "observar" notes cb (by decide) hn]
      rfl
    · rw [decidir_rechazar_sin_notes p "rechazar" notes cb (by decide) hn]
      rfl
  · intro hn
    refine ⟨?_, ?_, ?_, ?_⟩
    · intro hne
      rw [decidir_observar_ok p "observar" notes cb (by decide) hn, hl]
      unfold aplicarDecision
      rw [if_neg (fun hh => hne hh.symm)]
    · intro heq
      rw [decidir_observar_ok p "observar" notes cb (by decide) hn, hl, heq]
      unfold aplicarDecision
      rw [if_pos rfl]
    · intro hne
      rw [decidir_rechazar_ok p "rechazar" notes cb (by decide) hn, hl]
      unfold aplicarDecision
      rw [if_neg (fun hh => hne hh.symm)]
    · intro heq
      rw [decidir_rechazar_ok p "rechazar" notes cb (by decide) hn, hl, heq]
      unfold aplicarDecision
      rw [if_pos rfl]

/-- Witness for C9 at the scenario pedido in `enviado`. -/
theorem claim_C9_witness :
    pedidoEnviado.estado ∈ estadosValidos ∧
    ((notesBlank (some "falta detalle") = true →
       decidir_pedido pedidoEnviado "observar" (some "falta detalle") none =
         .error (.validation "notes es requerido para observar") ∧
       decidir_pedido pedidoEnviado "rechazar" (some "falta detalle") none =
         .error (.validation "notes es requerido para rechazar") ∧
       estadoTras pedidoEnviado
         (decidir_pedido pedidoEnviado "observar" (some "falta detalle") none) =
         pedidoEnviado ∧
       estadoTras pedidoEnviado
         (decidir_pedido pedidoEnviado "rechazar" (some "falta detalle") none) =
         pedidoEnviado) ∧
     (notesBlank (some "falta detalle") = false →
       (¬ pedidoEnviado.estado = "observado" →
          decidir_pedido pedidoEnviado "observar" (some "falta detalle") none =
            .ok ({ pedidoEnviado with
                   estado := "observado"
                   historial := pedidoEnviado.historial ++
                     [{ estado_anterior := pedidoEnviado.estado, estado_nuevo := "observado",
                        motivo := some "falta detalle",
                        changed_by := (pyOrNone none).getD "ui" }] },
                 "observado")) ∧
       (pedidoEnviado.estado = "observado" →
          decidir_pedido pedidoEnviado "observar" (some "falta detalle") none =
            .ok (pedidoEnviado, "observado")) ∧
       (¬ pedidoEnviado.estado = "rechazado" →
          decidir_pedido pedidoEnviado "rechazar" (some "falta detalle") none =
            .ok ({ pedidoEnviado with
                   estado := "rechazado"
                   historial := pedidoEnviado.historial ++
                     [{ estado_anterior := pedidoEnviado.estado, estado_nuevo := "rechazado",
                        motivo := some "falta detalle",
                        changed_by := (pyOrNone none).getD "ui" }] },
                 "rechazado")) ∧
       (pedidoEnviado.estado = "rechazado" →
          decidir_pedido pedidoEnviado "rechazar" (some "falta detalle") none =
            .ok (pedidoEnviado, "rechazado")))) :=
  ⟨by decide, claim_C9_notas_requeridas pedidoEnviado (some "falta detalle") none (by decide)⟩

/-- C9 counterexample: the claim states that with non-empty notes "observar"
always appends one historial row, but when the pedido is already in
`observado` the decision succeeds without appending anything. -/
theorem claim_C9_counterexample :
    pedidoObservado.estado = "observado" ∧
    notesBlank (some "seguimiento") = false ∧
    decidir_pedido pedidoObservado "observar" (some "seguimiento") (some "mesa") =
      .ok (pedidoObservado, "observado") ∧
    (estadoTras pedidoObservado
        (decidir_pedido pedidoObservado "observar" (some "seguimiento") (some "mesa"))).historial =
      pedidoObservado.historial := by
  decide

/-- C10: the archivos.py upsert replaces the storage metadata of the
existing (pedido_id, tipo_doc) row and resets the whole review cycle
(`review_status / review_notes / reviewed_by / reviewed_at` to NULL),
discarding any prior approval or observation, while the endpoint performs no
write on the pedido or its historial; the pedidos.py upsert variant replaces
the metadata but leaves the review columns untouched. -/
theorem claim_C10_upsert_resetea_review (old : ArchivoRow) (m : UploadMeta) (p : Pedido) :
    ((upsert_archivo_archivos old m).review_status = none ∧
     (upsert_archivo_archivos old m).review_notes = none ∧
     (upsert_archivo_archivos old m).reviewed_by = none ∧
     (upsert_archivo_archivos old m).reviewed_at = none) ∧
    ((upsert_archivo_archivos old m).storage_path = m.storage_path ∧
     (upsert_archivo_archivos old m).file_name = m.file_name ∧
     (upsert_archivo_archivos old m).content_type = m.content_type ∧
     (upsert_archivo_archivos old m).bytes = m.bytes ∧
     (upsert_archivo_archivos old m).pedido_id = old.pedido_id ∧
     (upsert_archivo_archivos old m).tipo_doc = old.tipo_doc) ∧
    upload_archivo_archivos p old m = (upsert_archivo_archivos old m, p) ∧
    ((upsert_archivo_pedidos old m).review_status = old.review_status ∧
     (upsert_archivo_pedidos old m).review_notes = old.review_notes ∧
     (upsert_archivo_pedidos old m).reviewed_by = old.reviewed_by ∧
     (upsert_archivo_pedidos old m).reviewed_at = old.reviewed_at) ∧
    ((upsert_archivo_pedidos old m).storage_path = m.storage_path ∧
     (upsert_archivo_pedidos old m).file_name = m.file_name ∧
     (upsert_archivo_pedidos old m).content_type = m.content_type ∧
     (upsert_archivo_pedidos old m).bytes = m.bytes) :=
  ⟨⟨rfl, rfl, rfl, rfl⟩, ⟨rfl, rfl, rfl, rfl, rfl, rfl⟩, rfl,
   ⟨rfl, rfl, rfl, rfl⟩, ⟨rfl, rfl, rfl, rfl⟩⟩

end BackPedidos